import Mathlib

/-!
Shallow embedding of the MGNREGA dashboard server services that the checked
claims talk about, together with theorems settling those claims.

Two source files are embedded:

* `src/server/services/multiApiGeolocation.js` — district-name normalization,
  the per-provider response post-processing, and the `getLiveDistrict`
  provider fallback chain.
* the Maharashtra leaderboard service (`src/unnamed/part_003`) —
  per-district aggregation, performance scoring, sorting/ranking, and the
  category filter.

Modelling conventions:

* JavaScript numbers are embedded as rationals (`ℚ`); `Math.round` is
  Mathlib's `round` (both are `⌊x + 1/2⌋`, including for negative halves).
  Floating-point rounding error is out of scope.
* JS strings are Lean `String`s; `trim`, `toUpperCase`, `toLowerCase` are
  re-implemented character-wise (`Char.isWhitespace`, `Char.toUpper`,
  `Char.toLower`), which agrees with JS on the ASCII/PTC data in play.
* A JS value that may be `null`/`undefined` is an `Option`; JS truthiness on
  strings (where `""` is falsy) is `jsTruthy`, and `a || b` is `jsOr`.
* `async`/HTTP effects are elided: each provider's network call is an
  abstract `Outcome` (either a returned `GeocodeResult` or a thrown error
  message), and pure post-processing of provider responses is embedded
  separately as the `…Build` functions.
-/

namespace Geo

/-- JS truthiness of a nullable string: `null`/`undefined` and `""` are falsy. -/
def jsTruthy : Option String → Bool
  | none => false
  | some s => s ≠ ""

/-- JS `a || b` on nullable strings. -/
def jsOr (a b : Option String) : Option String :=
  if jsTruthy a then a else b

/-- JS `a || b` where the fallback `b` is a plain (non-null) string. -/
def jsOrD (a : Option String) (b : String) : String :=
  match a with
  | some s => if s = "" then b else s
  | none => b

/-- JS `String.prototype.toUpperCase`, character-wise (ASCII-faithful). -/
def jsToUpper (s : String) : String :=
  String.mk (s.data.map Char.toUpper)

/-- JS `String.prototype.toLowerCase`, character-wise (ASCII-faithful). -/
def jsToLower (s : String) : String :=
  String.mk (s.data.map Char.toLower)

/-- JS `String.prototype.trim`: drop leading and trailing whitespace. -/
def jsTrim (s : String) : String :=
  String.mk (((s.data.dropWhile Char.isWhitespace).reverse.dropWhile Char.isWhitespace).reverse)

/-- The `MAHARASHTRA_DISTRICT_MAP` object literal
(`multiApiGeolocation.js:23-67`), as an association list in source order. -/
def MAHARASHTRA_DISTRICT_MAP : List (String × String) :=
  [("AURANGABAD", "CHATRAPATI SAMBHAJI NAGAR"),
   ("OSMANABAD", "DHARASHIV"),
   ("AHMADNAGAR", "AHMEDNAGAR"),
   ("AHMEDNAGAR", "AHMEDNAGAR"),
   ("BULDANA", "BULDHANA"),
   ("GONDIYA", "GONDIA"),
   ("CHATRAPATI SAMBHAJINAGAR", "CHATRAPATI SAMBHAJI NAGAR"),
   ("CHHATRAPATI SAMBHAJI NAGAR", "CHATRAPATI SAMBHAJI NAGAR"),
   ("SAMBHAJI NAGAR", "CHATRAPATI SAMBHAJI NAGAR"),
   ("KARVIR", "KOLHAPUR"),
   ("ROHA TALUKA", "RAIGAD"),
   ("ROHA", "RAIGAD"),
   ("NAGPUR URBAN TALUKA", "NAGPUR"),
   ("NAGPUR URBAN", "NAGPUR"),
   ("NANDGAON-KHANDESHWAR", "AKOLA"),
   ("AKOLA TALUKA", "AKOLA"),
   ("PUNE CITY TALUKA", "PUNE"),
   ("HAVELI TALUKA", "PUNE"),
   ("MUMBAI CITY TALUKA", "MUMBAI SUBURBAN"),
   ("MUMBAI SUBURBAN TALUKA", "MUMBAI SUBURBAN"),
   ("MUMBAI", "MUMBAI SUBURBAN"),
   ("MUMBAI CITY", "MUMBAI SUBURBAN"),
   ("GREATER MUMBAI", "MUMBAI SUBURBAN"),
   ("THANE", "THANE"),
   ("PUNE", "PUNE"),
   ("NAGPUR", "NAGPUR"),
   ("NASHIK", "NASHIK"),
   ("AKOLA", "AKOLA"),
   ("AMRAVATI", "AMRAVATI"),
   ("SOLAPUR", "SOLAPUR"),
   ("KOLHAPUR", "KOLHAPUR"),
   ("RAIGAD", "RAIGAD"),
   ("RATNAGIRI", "RATNAGIRI"),
   ("SINDHUDURG", "SINDHUDURG")]

/-- Property lookup `MAHARASHTRA_DISTRICT_MAP[k]` (`undefined` becomes `none`). -/
def mapLookup (k : String) : Option String :=
  (MAHARASHTRA_DISTRICT_MAP.find? (fun p => p.1 == k)).map (fun p => p.2)

/-- Case-insensitive match of the reversed pattern `ps` against the front of
the reversed character list; on success returns the remaining characters.
Used to model the `$`-anchored, `/i`-flagged regexes of the normalizer. -/
def matchRevCI : List Char → List Char → Option (List Char)
  | [], rest => some rest
  | _ :: _, [] => none
  | p :: ps, c :: cs => if c.toUpper = p then matchRevCI ps cs else none

/-- Models `s.replace(/\s+SUF$/i, "")` for an uppercase literal `suf`:
if `s` ends with `suf` (case-insensitively) preceded by at least one
whitespace character, drop the suffix together with the whole preceding
whitespace run (the regex match is leftmost and `\s+` is greedy, so the
entire trailing whitespace run is consumed); otherwise `s` is unchanged. -/
def stripAdminSuffix (suf : String) (s : String) : String :=
  match matchRevCI suf.data.reverse s.data.reverse with
  | none => s
  | some rest =>
    match rest with
    | [] => s
    | c :: _ =>
      if c.isWhitespace then String.mk ((rest.dropWhile Char.isWhitespace).reverse) else s

/-- The four sequential `.replace` calls of `normalizeDistrictName`
(`multiApiGeolocation.js:72-76`), in source order: DISTRICT, TALUK,
TALUKA, TEHSIL. -/
def stripSuffixes (s : String) : String :=
  stripAdminSuffix "TEHSIL"
    (stripAdminSuffix "TALUKA"
      (stripAdminSuffix "TALUK"
        (stripAdminSuffix "DISTRICT" s)))

/-- `normalizeDistrictName` (`multiApiGeolocation.js:70-78`): falsy input gives
`null`; otherwise trim, uppercase, strip the four administrative suffixes and
apply the correction map (`MAHARASHTRA_DISTRICT_MAP[normalized] || normalized`). -/
def normalizeDistrictName : Option String → Option String
  | none => none
  | some d =>
    if d = "" then none
    else
      let normalized := stripSuffixes (jsToUpper (jsTrim d))
      some (jsOrD (mapLookup normalized) normalized)

/-- The `GeocodeResult`-shaped object each provider returns. The
`formatted`, `coordinates`, `accuracy` and `raw` fields are carried along by
the source but never inspected by the resolution logic, so they are elided. -/
structure GeocodeResult where
  state : Option String
  district : Option String
  city : Option String
  country : String
  source : String
deriving DecidableEq, Repr

/-- Final stage of `reverseGeocodeGoogle` (`multiApiGeolocation.js:153-179`),
taking the `state`/`district`/`city`/`country` values extracted from the
`address_components` loop (the HTTP call and that loop are elided).
Note the district is normalized unconditionally, before any state check,
and the function throws if state or normalized district is missing. -/
def googleBuild (state district city country : Option String) :
    Except String GeocodeResult :=
  let normalizedDistrict := normalizeDistrictName district
  if jsTruthy state = false ∨ jsTruthy normalizedDistrict = false then
    Except.error "Could not extract state or district from Google response"
  else
    Except.ok
      { state := state, district := normalizedDistrict,
        city := jsOr city normalizedDistrict,
        country := jsOrD country "India", source := "Google" }

/-- District extraction of `reverseGeocodeMapMyIndia`:
`results.district || results.subDistrict || null`. -/
def mapMyIndiaDistrictOf (rawDistrict subDistrict : Option String) : Option String :=
  jsOr rawDistrict (jsOr subDistrict none)

/-- Final stage of `reverseGeocodeMapMyIndia` (`multiApiGeolocation.js:213-251`),
taking the fields of `data.results[0]`. Normalization runs only when the
extracted state is strictly (`===`) the string `"Maharashtra"` and the
district is truthy. -/
def mapMyIndiaBuild (rawDistrict subDistrict rawState rawCity rawLocality : Option String) :
    GeocodeResult :=
  let district := mapMyIndiaDistrictOf rawDistrict subDistrict
  let state := jsOr rawState none
  let city := jsOr rawCity (jsOr rawLocality none)
  let normalizedDistrict :=
    if state = some "Maharashtra" ∧ jsTruthy district then normalizeDistrictName district
    else district
  { state := state, district := normalizedDistrict, city := city,
    country := "India", source := "MapmyIndia" }

/-- District extraction of `reverseGeocodeGeoapify`:
`result.county || result.state_district || result.city || null`. -/
def geoapifyDistrictOf (county stateDistrict rawCity : Option String) : Option String :=
  jsOr county (jsOr stateDistrict (jsOr rawCity none))

/-- Final stage of `reverseGeocodeGeoapify` (`multiApiGeolocation.js:294-341`),
taking the fields of `data.results[0]`. Same strict-equality normalization
condition as MapmyIndia. -/
def geoapifyBuild (county stateDistrict rawCity rawState town village rawCountry : Option String) :
    GeocodeResult :=
  let district := geoapifyDistrictOf county stateDistrict rawCity
  let state := jsOr rawState none
  let city := jsOr rawCity (jsOr town (jsOr village none))
  let normalizedDistrict :=
    if state = some "Maharashtra" ∧ jsTruthy district then normalizeDistrictName district
    else district
  { state := state, district := normalizedDistrict, city := city,
    country := jsOrD rawCountry "India", source := "Geoapify" }

/-- State extraction of `reverseGeocodeLocationIQ`:
`address.state || address.state_district || address.region || null`. -/
def locationIQStateOf (rawState stateDistrict region : Option String) : Option String :=
  jsOr rawState (jsOr stateDistrict (jsOr region none))

/-- District extraction of `reverseGeocodeLocationIQ`
(`multiApiGeolocation.js:397-407`): priority chain
state_district (when different from the extracted state) then city (only in
Maharashtra) then county then district. -/
def locationIQDistrictOf (stateDistrict county rawCity rawDistrict state : Option String) :
    Option String :=
  if jsTruthy stateDistrict ∧ stateDistrict ≠ state then stateDistrict
  else if jsTruthy rawCity ∧ state = some "Maharashtra" then rawCity
  else if jsTruthy county then county
  else if jsTruthy rawDistrict then rawDistrict
  else none

/-- Final stage of `reverseGeocodeLocationIQ` (`multiApiGeolocation.js:391-439`),
taking the fields of `data.address`. Same strict-equality normalization
condition as MapmyIndia. -/
def locationIQBuild
    (stateDistrict county rawState rawCity region town village rawDistrict rawCountry :
      Option String) : GeocodeResult :=
  let state := locationIQStateOf rawState stateDistrict region
  let district := locationIQDistrictOf stateDistrict county rawCity rawDistrict state
  let city := jsOr rawCity (jsOr town (jsOr village none))
  let normalizedDistrict :=
    if state = some "Maharashtra" ∧ jsTruthy district then normalizeDistrictName district
    else district
  { state := state, district := normalizedDistrict, city := city,
    country := jsOrD rawCountry "India", source := "LocationIQ" }

/-- What one provider's network call would do if made: return a
`GeocodeResult` or throw an error with a message. -/
inductive Outcome where
  | ok : GeocodeResult → Outcome
  | err : String → Outcome
deriving DecidableEq, Repr

/-- One provider's environment: its configured API key (from `process.env`)
and the outcome its call would produce. -/
structure Provider where
  key : Option String
  outcome : Outcome
deriving DecidableEq, Repr

/-- The four providers' environments, in the source's priority order. -/
structure Env where
  google : Provider
  mapmyindia : Provider
  geoapify : Provider
  locationiq : Provider
deriving DecidableEq, Repr

/-- The guard `KEY && KEY !== 'YOUR_..._KEY_HERE'` used before each attempt. -/
def keyConfigured (key : Option String) (placeholder : String) : Bool :=
  jsTruthy key && key != some placeholder

/-- The sufficiency check `result.district && result.state`
(`multiApiGeolocation.js:469` etc.): JS truthiness, so an empty-string
state or district does not count. -/
def sufficient (r : GeocodeResult) : Bool :=
  jsTruthy r.district && jsTruthy r.state

/-- The fallback chain in priority order, pairing each provider with its
display name and its key placeholder. -/
def providerList (env : Env) : List (String × String × Provider) :=
  [("Google", "YOUR_GOOGLE_API_KEY_HERE", env.google),
   ("MapmyIndia", "YOUR_MAPMYINDIA_API_KEY_HERE", env.mapmyindia),
   ("Geoapify", "YOUR_GEOAPIFY_API_KEY_HERE", env.geoapify),
   ("LocationIQ", "YOUR_LOCATIONIQ_API_KEY_HERE", env.locationiq)]

/-- Message of the `Error` thrown when every provider is exhausted
(`multiApiGeolocation.js:538`). -/
def exhaustedMessage : String :=
  "District detection unavailable. All geocoding APIs failed."

/-- Observable outcome of `getLiveDistrict`: its return value or thrown
error, the `errors` array accumulated by the `catch` blocks (the source
logs it just before throwing), and — for observability statements — the
list of providers whose call was actually made, in order. -/
structure ChainResult where
  result : Except String GeocodeResult
  errors : List (String × String)
  attempted : List String
deriving Repr

/-- The body of `getLiveDistrict` (`multiApiGeolocation.js:458-539`): the four
provider blocks are identical up to the provider, so they are modelled as one
recursion over `providerList`. A configured provider is called; if it returns
a result passing `sufficient`, that result is returned at once; if it returns
an insufficient result, the chain just moves on (nothing is pushed onto
`errors`); if it throws, `{api, error.message}` is pushed onto `errors`.
Unconfigured providers are skipped entirely. -/
def runChain :
    List (String × String × Provider) → List (String × String) → List String → ChainResult
  | [], errors, attempted =>
    { result := Except.error exhaustedMessage, errors := errors, attempted := attempted }
  | (name, placeholder, p) :: rest, errors, attempted =>
    if keyConfigured p.key placeholder then
      match p.outcome with
      | Outcome.ok r =>
        if sufficient r then
          { result := Except.ok r, errors := errors, attempted := attempted ++ [name] }
        else runChain rest errors (attempted ++ [name])
      | Outcome.err e => runChain rest (errors ++ [(name, e)]) (attempted ++ [name])
    else runChain rest errors attempted

/-- `getLiveDistrict(lat, lon)`: the coordinates only flow into the elided
HTTP calls, so the function is determined by the provider environment. -/
def getLiveDistrict (env : Env) : ChainResult :=
  runChain (providerList env) [] []

/-- A provider entry that is configured and whose call returns a result
passing the `sufficient` check. -/
def yieldsSufficient (x : String × String × Provider) : Bool :=
  keyConfigured x.2.2.key x.2.1 &&
    match x.2.2.outcome with
    | Outcome.ok r => sufficient r
    | Outcome.err _ => false

/-- The `errors` entry a provider contributes: only configured providers
whose call throws contribute one. -/
def providerFailure (x : String × String × Provider) : Option (String × String) :=
  if keyConfigured x.2.2.key x.2.1 then
    match x.2.2.outcome with
    | Outcome.err e => some (x.1, e)
    | Outcome.ok _ => none
  else none

end Geo

namespace Board

/-- The root-level fields of one `MGNREGAData` row that
`getMaharashtraLeaderboard` reads (`part_003:119-125`). A field absent in the
document is read as `|| 0` by the source, so absent is modelled as `0`. -/
structure DataRecord where
  district : String
  total_persondays_generated : ℚ
  total_expenditure : ℚ
  average_days_per_household : ℚ
  total_households_worked : ℚ
  total_completed_works : ℚ
  total_ongoing_works : ℚ
  average_wage_per_day : ℚ
deriving DecidableEq, Repr

/-- The per-district accumulator object created in `districtMap`
(`part_003:103-113`). `avgWageRate` is first a running sum (`part_003:125`)
and is turned into the rounded average by `finalizeWage`. -/
structure DistrictAgg where
  district : String
  totalPersonDays : ℚ
  totalExpenditure : ℚ
  employmentProvided : ℚ
  householdsWorked : ℚ
  worksCompleted : ℚ
  worksInProgress : ℚ
  avgWageRate : ℚ
  monthsCount : ℕ
deriving DecidableEq, Repr

/-- The fresh accumulator inserted on a district's first record. -/
def emptyAgg (district : String) : DistrictAgg :=
  { district := district, totalPersonDays := 0, totalExpenditure := 0,
    employmentProvided := 0, householdsWorked := 0, worksCompleted := 0,
    worksInProgress := 0, avgWageRate := 0, monthsCount := 0 }

/-- One iteration of the `districts.forEach` aggregation body
(`part_003:119-126`). -/
def addRecord (d : DistrictAgg) (r : DataRecord) : DistrictAgg :=
  { d with
    totalPersonDays := d.totalPersonDays + r.total_persondays_generated,
    totalExpenditure := d.totalExpenditure + r.total_expenditure,
    employmentProvided := d.employmentProvided + r.average_days_per_household,
    householdsWorked := max d.householdsWorked r.total_households_worked,
    worksCompleted := d.worksCompleted + r.total_completed_works,
    worksInProgress := d.worksInProgress + r.total_ongoing_works,
    avgWageRate := d.avgWageRate + r.average_wage_per_day,
    monthsCount := d.monthsCount + 1 }

/-- One record's effect on `districtMap`: the JS `Map` (keyed by district
name, iterated in insertion order) is modelled as an association list in
insertion order. -/
def insertRecord (acc : List DistrictAgg) (r : DataRecord) : List DistrictAgg :=
  if acc.any (fun d => d.district == r.district) then
    acc.map (fun d => if d.district = r.district then addRecord d r else d)
  else acc ++ [addRecord (emptyAgg r.district) r]

/-- The whole `districts.forEach` aggregation loop. -/
def aggregateRecords (records : List DataRecord) : List DistrictAgg :=
  records.foldl insertRecord []

/-- The `districtMap.forEach` pass computing the average wage rate
(`part_003:130-134`): `monthsCount > 0 ? Math.round(sum / monthsCount) : 0`. -/
def finalizeWage (acc : List DistrictAgg) : List DistrictAgg :=
  acc.map (fun d =>
    { d with
      avgWageRate :=
        if 0 < d.monthsCount then ((round (d.avgWageRate / (d.monthsCount : ℚ)) : ℤ) : ℚ)
        else 0 })

/-- `Math.round(x * 100) / 100` — round to two decimal places
(`part_003:32`). -/
def round2 (x : ℚ) : ℚ :=
  ((round (x * 100) : ℤ) : ℚ) / 100

/-- `calculatePerformanceScore` (`part_003:13-33`). The
`!districtData || !districtData.metrics` null guard is dropped: the only
call site always passes an object wrapping the aggregated metrics. -/
def calculatePerformanceScore (metrics : DistrictAgg) (maxPersonDays maxExpenditure : ℚ) : ℚ :=
  let normalizedPersonDays :=
    if 0 < maxPersonDays then metrics.totalPersonDays / maxPersonDays else 0
  let normalizedExpenditure :=
    if 0 < maxExpenditure then metrics.totalExpenditure / maxExpenditure else 0
  round2 ((normalizedPersonDays * (6 / 10) + normalizedExpenditure * (4 / 10)) * 100)

/-- The category object returned by `getPerformanceCategory`. -/
structure Category where
  label : String
  labelEn : String
  color : String
  icon : String
  emoji : String
deriving DecidableEq, Repr

/-- `getPerformanceCategory` (`part_003:39-68`): fixed thresholds, evaluated
high to low; the `label` field is the Marathi display label. -/
def getPerformanceCategory (score : ℚ) : Category :=
  if 80 ≤ score then
    { label := "🟢 उत्कृष्ट", labelEn := "Excellent", color := "green", icon := "🟢", emoji := "🌟" }
  else if 60 ≤ score then
    { label := "🟡 चांगले", labelEn := "Good", color := "yellow", icon := "🟡", emoji := "✅" }
  else if 40 ≤ score then
    { label := "🟠 सरासरी", labelEn := "Average", color := "orange", icon := "🟠", emoji := "⚡" }
  else
    { label := "🔴 सुधारणा आवश्यक", labelEn := "Needs Improvement", color := "red", icon := "🔴",
      emoji := "⚠️" }

/-- The `metrics` sub-object of a leaderboard entry (`part_003:156-167`). -/
structure EntryMetrics where
  totalPersonDays : ℚ
  totalExpenditure : ℚ
  employmentProvided : ℚ
  householdsWorked : ℚ
  worksCompleted : ℚ
  worksInProgress : ℚ
  completionRate : ℤ
  avgWageRate : ℚ
deriving DecidableEq, Repr

/-- One leaderboard entry (`part_003:146-168`). `rankEmoji`, added only in
the ranking `forEach`, starts out empty. -/
structure Entry where
  rank : ℕ
  district : String
  score : ℚ
  employment : ℚ
  works : ℚ
  category : String
  categoryColor : String
  icon : String
  emoji : String
  rankEmoji : String
  metrics : EntryMetrics
deriving DecidableEq, Repr

/-- The `allData.map` body building an unranked entry (`part_003:142-169`),
including the guarded `completionRate`. -/
def toEntry (maxPersonDays maxExpenditure : ℚ) (data : DistrictAgg) : Entry :=
  let score := calculatePerformanceScore data maxPersonDays maxExpenditure
  let category := getPerformanceCategory score
  { rank := 0, district := data.district, score := score,
    employment := data.totalPersonDays, works := data.worksCompleted,
    category := category.label, categoryColor := category.color,
    icon := category.icon, emoji := category.emoji, rankEmoji := "",
    metrics :=
      { totalPersonDays := data.totalPersonDays,
        totalExpenditure := data.totalExpenditure,
        employmentProvided := data.employmentProvided,
        householdsWorked := data.householdsWorked,
        worksCompleted := data.worksCompleted,
        worksInProgress := data.worksInProgress,
        completionRate :=
          if 0 < data.worksCompleted + data.worksInProgress then
            round (data.worksCompleted / (data.worksCompleted + data.worksInProgress) * 100)
          else 0,
        avgWageRate := data.avgWageRate } }

/-- `Math.max(...xs, 1)`: the maximum of a list of rationals floored at 1.
Folding from `1` is equivalent because `max` is commutative and associative. -/
def jsMaxFloor1 (xs : List ℚ) : ℚ :=
  xs.foldl max 1

/-- `Math.max(...allData.map(d => d.totalPersonDays || 0), 1)` (`part_003:138`). -/
def maxPersonDaysOf (allData : List DistrictAgg) : ℚ :=
  jsMaxFloor1 (allData.map (fun d => d.totalPersonDays))

/-- `Math.max(...allData.map(d => d.totalExpenditure || 0), 1)` (`part_003:139`). -/
def maxExpenditureOf (allData : List DistrictAgg) : ℚ :=
  jsMaxFloor1 (allData.map (fun d => d.totalExpenditure))

/-- The comparator `(a, b) => b.score - a.score` (`part_003:172`) as the
"a may precede b" relation of a stable sort: `c(a,b) ≤ 0` iff
`b.score ≤ a.score`. -/
def scoreLE (a b : Entry) : Bool :=
  decide (b.score ≤ a.score)

/-- The rank emoji ladder of the ranking `forEach` (`part_003:179-183`). -/
def rankEmojiFor (rank : ℕ) : String :=
  if rank = 1 then "🥇"
  else if rank = 2 then "🥈"
  else if rank = 3 then "🥉"
  else if rank ≤ 10 then "🏆"
  else "📍"

/-- The ranking `forEach` (`part_003:175-184`): entry at index `k` (counting
from `i`) gets `rank = i + k + 1` and its rank emoji. -/
def assignRanks : ℕ → List Entry → List Entry
  | _, [] => []
  | i, e :: es =>
    { e with rank := i + 1, rankEmoji := rankEmojiFor (i + 1) } :: assignRanks (i + 1) es

/-- Scoring, sorting and ranking stage of `getMaharashtraLeaderboard`
(`part_003:136-184`), from the aggregated per-district data. JS
`Array.prototype.sort` is stable (ECMAScript 2019), so the comparator sort
is `List.mergeSort` with `scoreLE`. -/
def buildLeaderboard (allData : List DistrictAgg) : List Entry :=
  let maxPersonDays := maxPersonDaysOf allData
  let maxExpenditure := maxExpenditureOf allData
  let leaderboard := allData.map (toEntry maxPersonDays maxExpenditure)
  assignRanks 0 (leaderboard.mergeSort scoreLE)

/-- The whole `getMaharashtraLeaderboard` pipeline (`part_003:73-193`) on the
rows the Mongo queries return (state/latest-year filtering, the
`success`/`year` envelope and logging are elided). -/
def getMaharashtraLeaderboard (records : List DataRecord) : List Entry :=
  buildLeaderboard (finalizeWage (aggregateRecords records))

/-- `getDistrictsByCategory` (`part_003:246-262`): filter the leaderboard by
`d.category.toLowerCase() === category.toLowerCase()` (the stored `category`
field is the Marathi display label). -/
def getDistrictsByCategory (leaderboard : List Entry) (category : String) : List Entry :=
  leaderboard.filter (fun d => Geo.jsToLower d.category == Geo.jsToLower category)

/-- Modelled from the spec (§4.2 step 2), for comparison in claim C5: average
`avgWageRate` across rows-with-data — rows reporting a zero/absent wage rate
are excluded from both the sum and the divisor, and a district with zero
valid rows gets average 0. -/
def avgWageRateSpec (rows : List DataRecord) : ℚ :=
  let valid := rows.filter (fun r => r.average_wage_per_day != 0)
  if valid.length = 0 then 0
  else (valid.map (fun r => r.average_wage_per_day)).sum / (valid.length : ℚ)

end Board


namespace Geo

/-- MapmyIndia response post-processing applied to a raw response whose
district is the whitespace string `" "` in Maharashtra: normalization trims
it to the empty string, which is non-null but falsy. -/
def mmiWhitespaceResult : GeocodeResult :=
  mapMyIndiaBuild (some " ") none (some "Maharashtra") none none

/-- Environment for the C1 counterexample: only MapmyIndia is configured and
its call returns `mmiWhitespaceResult`. -/
def envC1cx : Env :=
  { google := { key := none, outcome := Outcome.err "skipped" },
    mapmyindia := { key := some "MMI_KEY", outcome := Outcome.ok mmiWhitespaceResult },
    geoapify := { key := none, outcome := Outcome.err "skipped" },
    locationiq := { key := none, outcome := Outcome.err "skipped" } }

/-- A Google result missing its district (insufficient). -/
def googleInsufficientResult : GeocodeResult :=
  { state := some "Karnataka", district := none, city := some "Bengaluru",
    country := "India", source := "Google" }

/-- A sufficient MapmyIndia result. -/
def mmiGoodResult : GeocodeResult :=
  { state := some "Maharashtra", district := some "PUNE", city := some "Pune",
    country := "India", source := "MapmyIndia" }

/-- Environment for the C1 witness: Google is configured but returns an
insufficient result, MapmyIndia is configured and sufficient, Geoapify is
configured but would throw, LocationIQ is unconfigured. -/
def envC1w : Env :=
  { google := { key := some "G_KEY", outcome := Outcome.ok googleInsufficientResult },
    mapmyindia := { key := some "MMI_KEY", outcome := Outcome.ok mmiGoodResult },
    geoapify := { key := some "GEO_KEY", outcome := Outcome.err "No results from Geoapify" },
    locationiq := { key := none, outcome := Outcome.err "skipped" } }

/-- A MapmyIndia result whose HTTP call succeeded but whose state is null. -/
def mmiNoStateResult : GeocodeResult :=
  { state := none, district := some "Akola", city := none,
    country := "India", source := "MapmyIndia" }

/-- Environment for the C8 counterexample: only MapmyIndia is configured; its
call succeeds but the response lacks a state, so it is insufficient. -/
def envC8cx : Env :=
  { google := { key := none, outcome := Outcome.err "skipped" },
    mapmyindia := { key := some "MMI_KEY", outcome := Outcome.ok mmiNoStateResult },
    geoapify := { key := none, outcome := Outcome.err "skipped" },
    locationiq := { key := none, outcome := Outcome.err "skipped" } }

/-- A LocationIQ result with no district (insufficient). -/
def liqInsufficientResult : GeocodeResult :=
  { state := some "Maharashtra", district := none, city := none,
    country := "India", source := "LocationIQ" }

/-- Environment for the C8 witness: Google and Geoapify throw, MapmyIndia
still has the placeholder key (skipped), LocationIQ returns an insufficient
result; no provider is sufficient. -/
def envC8w : Env :=
  { google := { key := some "G_KEY",
                outcome := Outcome.err "Google API returned status: REQUEST_DENIED" },
    mapmyindia := { key := some "YOUR_MAPMYINDIA_API_KEY_HERE",
                    outcome := Outcome.err "never called" },
    geoapify := { key := some "GEO_KEY", outcome := Outcome.err "No results from Geoapify" },
    locationiq := { key := some "LIQ_KEY", outcome := Outcome.ok liqInsufficientResult } }

end Geo

namespace Board

/-- A PUNE row reporting a wage rate of 10. -/
def recC5a : DataRecord :=
  { district := "PUNE", total_persondays_generated := 100, total_expenditure := 50,
    average_days_per_household := 10, total_households_worked := 20,
    total_completed_works := 5, total_ongoing_works := 5, average_wage_per_day := 10 }

/-- A second PUNE row reporting a zero wage rate. -/
def recC5b : DataRecord :=
  { district := "PUNE", total_persondays_generated := 100, total_expenditure := 50,
    average_days_per_household := 10, total_households_worked := 20,
    total_completed_works := 5, total_ongoing_works := 5, average_wage_per_day := 0 }

/-- Input for the C5 counterexample and witness: two PUNE rows, one of which
reports a zero wage rate. -/
def recsC5 : List DataRecord := [recC5a, recC5b]

/-- A single PUNE row; alone in its dataset it attains both maxima. -/
def recC9 : DataRecord :=
  { district := "PUNE", total_persondays_generated := 100, total_expenditure := 100,
    average_days_per_household := 10, total_households_worked := 20,
    total_completed_works := 5, total_ongoing_works := 5, average_wage_per_day := 250 }

/-- Input for the C9 counterexample: one district whose score is 100. -/
def recsC9 : List DataRecord := [recC9]

/-- An all-zero aggregate with one counted month (used by the C2/C10
witnesses; zero fields make the nonnegativity hypotheses definitional). -/
def aggZero : DistrictAgg :=
  { district := "PUNE", totalPersonDays := 0, totalExpenditure := 0,
    employmentProvided := 0, householdsWorked := 0, worksCompleted := 0,
    worksInProgress := 0, avgWageRate := 0, monthsCount := 1 }

/-- Aggregated input for the C2 and C10 witnesses. -/
def allDataZero : List DistrictAgg := [aggZero]

/-- Two distinct districts with identical metrics, hence identical scores
(used by the C4 witness). -/
def aggTieA : DistrictAgg :=
  { district := "AKOLA", totalPersonDays := 5, totalExpenditure := 5,
    employmentProvided := 0, householdsWorked := 0, worksCompleted := 0,
    worksInProgress := 0, avgWageRate := 0, monthsCount := 1 }

/-- Second district of the C4 tie. -/
def aggTieB : DistrictAgg :=
  { district := "THANE", totalPersonDays := 5, totalExpenditure := 5,
    employmentProvided := 0, householdsWorked := 0, worksCompleted := 0,
    worksInProgress := 0, avgWageRate := 0, monthsCount := 1 }

/-- Aggregated input for the C4 witness: a score tie in iteration order. -/
def allDataTie : List DistrictAgg := [aggTieA, aggTieB]

/-- The aggregate that `recsC9` produces (used to state the C9
counterexample). -/
def aggC9 : DistrictAgg :=
  { district := "PUNE", totalPersonDays := 100, totalExpenditure := 100,
    employmentProvided := 10, householdsWorked := 20, worksCompleted := 5,
    worksInProgress := 5, avgWageRate := 250, monthsCount := 1 }

/-- Default values so that `head!` is available on aggregate lists. -/
instance : Inhabited DistrictAgg :=
  ⟨emptyAgg ""⟩

/-- Default values so that `head!` is available on leaderboards. -/
instance : Inhabited Entry :=
  ⟨toEntry 1 1 (emptyAgg "")⟩

end Board


open Geo Board

namespace Geo

/-- Helper: when `x` is the first provider entry that is configured and
yields a sufficient result, the chain returns `x`'s result and the providers
actually called are exactly the configured ones before `x`, then `x`. -/
theorem runChain_find {l : List (String × String × Provider)}
    {x : String × String × Provider} {r : GeocodeResult}
    (errors : List (String × String)) (attempted : List String)
    (hfind : l.find? yieldsSufficient = some x) (hr : x.2.2.outcome = Outcome.ok r) :
    (runChain l errors attempted).result = Except.ok r ∧
    (runChain l errors attempted).attempted =
      attempted ++
        ((l.takeWhile (fun y => !yieldsSufficient y)).filter
          (fun y => keyConfigured y.2.2.key y.2.1)).map (fun y => y.1) ++ [x.1] := by
  induction l generalizing errors attempted with
  | nil => simp at hfind
  | cons hd t ih =>
    obtain ⟨name, placeholder, p⟩ := hd
    by_cases hy : yieldsSufficient (name, placeholder, p)
    · rw [List.find?_cons_of_pos _ hy] at hfind
      obtain rfl : x = (name, placeholder, p) := by cases hfind; rfl
      have hkc : keyConfigured p.key placeholder = true := by
        have := hy
        unfold yieldsSufficient at this
        rw [Bool.and_eq_true] at this
        exact this.1
      cases houtcome : p.outcome with
      | ok r' =>
        have hr' : r' = r := by
          have := hr
          simp only [houtcome] at this
          cases this; rfl
        subst hr'
        have hsuff : sufficient r' = true := by
          have := hy
          unfold yieldsSufficient at this
          rw [houtcome] at this
          rw [Bool.and_eq_true] at this
          exact this.2
        rw [List.takeWhile_cons_of_neg (by simp [hy])]
        simp [runChain, hkc, houtcome, hsuff]
      | err e =>
        exfalso
        have := hy
        unfold yieldsSufficient at this
        rw [houtcome] at this
        simp at this
    · rw [List.find?_cons_of_neg _ hy] at hfind
      rw [List.takeWhile_cons_of_pos (by simp [hy])]
      by_cases hkc : keyConfigured p.key placeholder
      · cases houtcome : p.outcome with
        | ok r' =>
          have hsuff : sufficient r' = false := by
            by_contra hc
            apply hy
            unfold yieldsSufficient
            rw [houtcome, hkc]
            simpa using Bool.of_not_eq_false hc
          have step :
              runChain ((name, placeholder, p) :: t) errors attempted =
                runChain t errors (attempted ++ [name]) := by
            simp [runChain, hkc, houtcome, hsuff]
          rw [step]
          obtain ⟨h1, h2⟩ := ih errors (attempted ++ [name]) hfind
          refine ⟨h1, ?_⟩
          rw [h2]
          simp [hkc]
        | err e =>
          have step :
              runChain ((name, placeholder, p) :: t) errors attempted =
                runChain t (errors ++ [(name, e)]) (attempted ++ [name]) := by
            simp [runChain, hkc, houtcome]
          rw [step]
          obtain ⟨h1, h2⟩ := ih (errors ++ [(name, e)]) (attempted ++ [name]) hfind
          refine ⟨h1, ?_⟩
          rw [h2]
          simp [hkc]
      · have step :
            runChain ((name, placeholder, p) :: t) errors attempted =
              runChain t errors attempted := by
          simp [runChain, hkc]
        rw [step]
        obtain ⟨h1, h2⟩ := ih errors attempted hfind
        refine ⟨h1, ?_⟩
        rw [h2]
        simp [hkc]

/-- Helper: when no provider entry is configured-and-sufficient, the chain
ends in the exhausted error and the accumulated `errors` are exactly the
configured providers whose call threw, in order. -/
theorem runChain_exhausted {l : List (String × String × Provider)}
    (errors : List (String × String)) (attempted : List String)
    (h : ∀ x ∈ l, yieldsSufficient x = false) :
    (runChain l errors attempted).result = Except.error exhaustedMessage ∧
    (runChain l errors attempted).errors = errors ++ l.filterMap providerFailure := by
  induction l generalizing errors attempted with
  | nil => simp [runChain]
  | cons hd t ih =>
    obtain ⟨name, placeholder, p⟩ := hd
    have hhd := h (name, placeholder, p) (List.mem_cons_self _ _)
    have ht : ∀ x ∈ t, yieldsSufficient x = false := fun x hx => h x (List.mem_cons_of_mem _ hx)
    by_cases hkc : keyConfigured p.key placeholder
    · cases houtcome : p.outcome with
      | ok r' =>
        have hsuff : sufficient r' = false := by
          unfold yieldsSufficient at hhd
          rw [houtcome, hkc] at hhd
          simpa using hhd
        have step :
            runChain ((name, placeholder, p) :: t) errors attempted =
              runChain t errors (attempted ++ [name]) := by
          simp [runChain, hkc, houtcome, hsuff]
        rw [step]
        obtain ⟨h1, h2⟩ := ih errors (attempted ++ [name]) ht
        refine ⟨h1, ?_⟩
        rw [h2]
        simp [List.filterMap_cons, providerFailure, hkc, houtcome]
      | err e =>
        have step :
            runChain ((name, placeholder, p) :: t) errors attempted =
              runChain t (errors ++ [(name, e)]) (attempted ++ [name]) := by
          simp [runChain, hkc, houtcome]
        rw [step]
        obtain ⟨h1, h2⟩ := ih (errors ++ [(name, e)]) (attempted ++ [name]) ht
        refine ⟨h1, ?_⟩
        rw [h2]
        simp [List.filterMap_cons, providerFailure, hkc, houtcome]
    · have step :
          runChain ((name, placeholder, p) :: t) errors attempted =
            runChain t errors attempted := by
        simp [runChain, hkc]
      rw [step]
      obtain ⟨h1, h2⟩ := ih errors attempted ht
      refine ⟨h1, ?_⟩
      rw [h2]
      simp [List.filterMap_cons, providerFailure, hkc]

end Geo

/-- C1 (counterexample): a configured provider (MapmyIndia, the first one
configured) yields a result whose state and district are both non-null
(`some "Maharashtra"` / `some ""`, the latter produced by normalizing the
whitespace district `" "` of a real Maharashtra response), yet
`getLiveDistrict` does not return that result — it falls through and throws,
because the sufficiency check uses JS truthiness and the empty string is
falsy. This refutes the claim as stated for "non-null" results. -/
theorem getLiveDistrict_first_nonnull_cx :
    mmiWhitespaceResult.state = some "Maharashtra" ∧
    mmiWhitespaceResult.district = some "" ∧
    mmiWhitespaceResult.district ≠ none ∧
    keyConfigured envC1cx.mapmyindia.key "YOUR_MAPMYINDIA_API_KEY_HERE" = true ∧
    (getLiveDistrict envC1cx).result = Except.error exhaustedMessage ∧
    (getLiveDistrict envC1cx).result ≠ Except.ok mmiWhitespaceResult :=
  ⟨rfl, rfl, by decide, rfl, rfl, fun h => Except.noConfusion h⟩

/-- C1 (amended): for every provider environment, if `x` is the first
provider in the fixed priority order Google, MapmyIndia, Geoapify,
LocationIQ that is configured and whose call returns a result with a truthy
(non-null and non-empty) state and district, then `getLiveDistrict` returns
exactly that provider's result, and the providers consulted are exactly the
configured ones strictly before `x` followed by `x` itself — no provider
after the first sufficient one is ever consulted. -/
theorem getLiveDistrict_returns_first_sufficient (env : Env)
    (x : String × String × Provider) (r : GeocodeResult)
    (hfind : (providerList env).find? yieldsSufficient = some x)
    (hr : x.2.2.outcome = Outcome.ok r) :
    (getLiveDistrict env).result = Except.ok r ∧
    (getLiveDistrict env).attempted =
      (((providerList env).takeWhile (fun y => !yieldsSufficient y)).filter
        (fun y => keyConfigured y.2.2.key y.2.1)).map (fun y => y.1) ++ [x.1] := by
  have h := runChain_find [] [] hfind hr
  simpa [getLiveDistrict] using h

/-- Witness for C1: in `envC1w`, Google is configured but insufficient and
MapmyIndia is the first sufficient provider; the chain returns MapmyIndia's
result after consulting exactly Google and MapmyIndia. -/
theorem getLiveDistrict_returns_first_sufficient_witness :
    (getLiveDistrict envC1w).result = Except.ok mmiGoodResult ∧
    (getLiveDistrict envC1w).attempted =
      (((providerList envC1w).takeWhile (fun y => !yieldsSufficient y)).filter
        (fun y => keyConfigured y.2.2.key y.2.1)).map (fun y => y.1) ++
      [("MapmyIndia", "YOUR_MAPMYINDIA_API_KEY_HERE", envC1w.mapmyindia).1] :=
  getLiveDistrict_returns_first_sufficient envC1w
    ("MapmyIndia", "YOUR_MAPMYINDIA_API_KEY_HERE", envC1w.mapmyindia) mmiGoodResult
    (by decide) (by decide)

/-- C8 (counterexample): in `envC8cx` the only configured provider,
MapmyIndia, is attempted and its HTTP call succeeds but the response lacks a
state, so the chain is exhausted; yet the accumulated failure list is empty —
the attempted provider whose response lacked state/district contributes no
failure reason, contradicting the claim that the terminal error carries a
reason for every attempted provider. -/
theorem getLiveDistrict_errors_cx :
    (getLiveDistrict envC8cx).result = Except.error exhaustedMessage ∧
    (getLiveDistrict envC8cx).attempted = ["MapmyIndia"] ∧
    (getLiveDistrict envC8cx).errors = [] ∧
    ¬ ∃ p ∈ (getLiveDistrict envC8cx).errors, p.1 = "MapmyIndia" :=
  ⟨rfl, rfl, rfl, by
    rintro ⟨p, hp, -⟩
    rw [show (getLiveDistrict envC8cx).errors = [] from rfl] at hp
    exact (List.not_mem_nil p) hp⟩

/-- C8 (amended): when no configured provider yields a sufficient result,
`getLiveDistrict` throws the fixed exhausted-chain error (whose `Error`
object itself carries only that message — the failure trail is only logged),
and the accumulated `errors` list contains, in priority order, exactly one
`(api, message)` entry for each configured provider whose call threw;
skipped (unconfigured) providers and providers that returned an insufficient
result without throwing contribute no entry. -/
theorem getLiveDistrict_exhausted_trail (env : Env)
    (h : ∀ x ∈ providerList env, yieldsSufficient x = false) :
    (getLiveDistrict env).result = Except.error exhaustedMessage ∧
    (getLiveDistrict env).errors = (providerList env).filterMap providerFailure := by
  have h2 := runChain_exhausted [] [] h
  simpa [getLiveDistrict] using h2

/-- Witness for C8: in `envC8w` (Google and Geoapify throw, MapmyIndia still
has the placeholder key, LocationIQ returns a result lacking its district)
the chain is exhausted and the failure list records exactly the two throwing
providers. -/
theorem getLiveDistrict_exhausted_trail_witness :
    (getLiveDistrict envC8w).result = Except.error exhaustedMessage ∧
    (getLiveDistrict envC8w).errors = (providerList envC8w).filterMap providerFailure :=
  getLiveDistrict_exhausted_trail envC8w (by decide)

namespace Geo

/-- Helper: every value of `MAHARASHTRA_DISTRICT_MAP` is nonempty and is a
fixed point of `normalizeDistrictName`. -/
theorem map_entries_fixed :
    ∀ p ∈ MAHARASHTRA_DISTRICT_MAP, p.2 ≠ "" ∧ normalizeDistrictName (some p.2) = some p.2 := by
  decide

end Geo

/-- C7 (counterexample): `normalizeDistrictName` is not idempotent. Suffix
stripping is a single pass over the four patterns in the fixed order
DISTRICT, TALUK, TALUKA, TEHSIL, so `"ABC DISTRICT TALUK"` loses only
`" TALUK"` on the first pass (DISTRICT is not yet final at that point) and
the exposed `" DISTRICT"` suffix is only stripped by a second application. -/
theorem normalizeDistrictName_not_idempotent_cx :
    normalizeDistrictName (some "ABC DISTRICT TALUK") = some "ABC DISTRICT" ∧
    normalizeDistrictName (normalizeDistrictName (some "ABC DISTRICT TALUK")) = some "ABC" ∧
    normalizeDistrictName (normalizeDistrictName (some "ABC DISTRICT TALUK")) ≠
      normalizeDistrictName (some "ABC DISTRICT TALUK") :=
  ⟨rfl, rfl, by decide⟩

/-- C7 (amended): `normalizeDistrictName` is idempotent on every non-null
input whose one-pass normal form is stable — either the trimmed, uppercased,
suffix-stripped form is a key of `MAHARASHTRA_DISTRICT_MAP` (every map value
is itself a fixed point), or that form is nonempty, misses the map, and is
itself fixed under trimming, uppercasing and suffix stripping. Inputs that
stack administrative suffixes (or are whitespace-only) fall outside this
domain and do break idempotence. -/
theorem normalizeDistrictName_idempotent_cond (x : String)
    (h :
      mapLookup (stripSuffixes (jsToUpper (jsTrim x))) ≠ none ∨
      (mapLookup (stripSuffixes (jsToUpper (jsTrim x))) = none ∧
       stripSuffixes (jsToUpper (jsTrim x)) ≠ "" ∧
       jsTrim (stripSuffixes (jsToUpper (jsTrim x))) = stripSuffixes (jsToUpper (jsTrim x)) ∧
       jsToUpper (stripSuffixes (jsToUpper (jsTrim x))) = stripSuffixes (jsToUpper (jsTrim x)) ∧
       stripSuffixes (stripSuffixes (jsToUpper (jsTrim x))) =
         stripSuffixes (jsToUpper (jsTrim x)))) :
    normalizeDistrictName (normalizeDistrictName (some x)) =
      normalizeDistrictName (some x) := by
  by_cases hx : x = ""
  · subst hx
    rfl
  · have hn : normalizeDistrictName (some x) =
        some (jsOrD (mapLookup (stripSuffixes (jsToUpper (jsTrim x))))
          (stripSuffixes (jsToUpper (jsTrim x)))) := by
      simp [normalizeDistrictName, hx]
    rcases h with hhit | ⟨hmiss, hne, htrim, hupper, hstrip⟩
    · obtain ⟨v, hv⟩ := Option.ne_none_iff_exists'.mp hhit
      obtain ⟨p, hp, hpv⟩ : ∃ p ∈ MAHARASHTRA_DISTRICT_MAP, p.2 = v := by
        unfold mapLookup at hv
        obtain ⟨q, hq1, hq2⟩ := Option.map_eq_some'.mp hv
        exact ⟨q, List.mem_of_find?_eq_some hq1, hq2⟩
      obtain ⟨hv_ne, hv_fix⟩ := Geo.map_entries_fixed p hp
      rw [hn, hv]
      have hord : jsOrD (some v) (stripSuffixes (jsToUpper (jsTrim x))) = v := by
        simp [jsOrD, hpv ▸ hv_ne]
      rw [hord]
      exact hpv ▸ hv_fix
    · rw [hn, hmiss]
      have hord : jsOrD none (stripSuffixes (jsToUpper (jsTrim x))) =
          stripSuffixes (jsToUpper (jsTrim x)) := rfl
      rw [hord]
      simp only [normalizeDistrictName, hne, if_neg hne]
      rw [htrim, hupper, hstrip, hmiss]
      rfl

/-- Witness for C7: `"Aurangabad District"` strips to the map key
`"AURANGABAD"`, so normalization is idempotent on it. -/
theorem normalizeDistrictName_idempotent_cond_witness :
    normalizeDistrictName (normalizeDistrictName (some "Aurangabad District")) =
      normalizeDistrictName (some "Aurangabad District") :=
  normalizeDistrictName_idempotent_cond "Aurangabad District" (Or.inl (by decide))

/-- C6 (counterexample): Google's post-processing normalizes the district
unconditionally — here the state is Karnataka (not Maharashtra under any
case convention) and the extracted district "Bangalore Urban District" is
still rewritten to "BANGALORE URBAN" instead of passing through unmodified.
Moreover MapmyIndia's condition is the strict `===` comparison, not a
case-insensitive one: with state "MAHARASHTRA" (equal to "Maharashtra"
case-insensitively) the district "Aurangabad" passes through even though
normalization would have rewritten it. -/
theorem normalization_condition_cx :
    ((googleBuild (some "Karnataka") (some "Bangalore Urban District") none none).toOption.map
      (fun r => r.district)) = some (some "BANGALORE URBAN") ∧
    some "BANGALORE URBAN" ≠ some "Bangalore Urban District" ∧
    (mapMyIndiaBuild (some "Aurangabad") none (some "MAHARASHTRA") none none).district =
      some "Aurangabad" ∧
    normalizeDistrictName (some "Aurangabad") = some "CHATRAPATI SAMBHAJI NAGAR" ∧
    jsToLower "MAHARASHTRA" = jsToLower "Maharashtra" :=
  ⟨rfl, by decide, rfl, rfl, rfl⟩

/-- C6 (amended): Google applies `normalizeDistrictName` to the extracted
district unconditionally (whatever the state); MapmyIndia, Geoapify and
LocationIQ apply it if and only if the extracted state is strictly
(case-sensitively) equal to "Maharashtra" and the extracted district is
truthy — in every other case the extracted district passes through to the
returned `GeocodeResult` unmodified. -/
theorem normalization_condition :
    (∀ state district city country r,
        googleBuild state district city country = Except.ok r →
        r.district = normalizeDistrictName district) ∧
    (∀ rd sd rst rc rl,
        ((mapMyIndiaBuild rd sd rst rc rl).state = some "Maharashtra" ∧
            jsTruthy (mapMyIndiaDistrictOf rd sd) = true →
          (mapMyIndiaBuild rd sd rst rc rl).district =
            normalizeDistrictName (mapMyIndiaDistrictOf rd sd)) ∧
        (¬ ((mapMyIndiaBuild rd sd rst rc rl).state = some "Maharashtra" ∧
              jsTruthy (mapMyIndiaDistrictOf rd sd) = true) →
          (mapMyIndiaBuild rd sd rst rc rl).district = mapMyIndiaDistrictOf rd sd)) ∧
    (∀ county sd rc rst town village rco,
        ((geoapifyBuild county sd rc rst town village rco).state = some "Maharashtra" ∧
            jsTruthy (geoapifyDistrictOf county sd rc) = true →
          (geoapifyBuild county sd rc rst town village rco).district =
            normalizeDistrictName (geoapifyDistrictOf county sd rc)) ∧
        (¬ ((geoapifyBuild county sd rc rst town village rco).state = some "Maharashtra" ∧
              jsTruthy (geoapifyDistrictOf county sd rc) = true) →
          (geoapifyBuild county sd rc rst town village rco).district =
            geoapifyDistrictOf county sd rc)) ∧
    (∀ sd county rst rc region town village rd rco,
        ((locationIQBuild sd county rst rc region town village rd rco).state =
              some "Maharashtra" ∧
            jsTruthy
              (locationIQDistrictOf sd county rc rd (locationIQStateOf rst sd region)) = true →
          (locationIQBuild sd county rst rc region town village rd rco).district =
            normalizeDistrictName
              (locationIQDistrictOf sd county rc rd (locationIQStateOf rst sd region))) ∧
        (¬ ((locationIQBuild sd county rst rc region town village rd rco).state =
                some "Maharashtra" ∧
              jsTruthy
                (locationIQDistrictOf sd county rc rd (locationIQStateOf rst sd region)) =
                  true) →
          (locationIQBuild sd county rst rc region town village rd rco).district =
            locationIQDistrictOf sd county rc rd (locationIQStateOf rst sd region))) := by
  refine ⟨?_, ?_, ?_, ?_⟩
  · intro state district city country r h
    simp only [googleBuild] at h
    split at h
    · exact absurd h (by simp)
    · cases h
      rfl
  · intro rd sd rst rc rl
    constructor
    · rintro ⟨hst, hd⟩
      simp only [mapMyIndiaBuild] at hst ⊢
      rw [if_pos ⟨hst, hd⟩]
    · intro hnc
      simp only [mapMyIndiaBuild] at hnc ⊢
      rw [if_neg hnc]
  · intro county sd rc rst town village rco
    constructor
    · rintro ⟨hst, hd⟩
      simp only [geoapifyBuild] at hst ⊢
      rw [if_pos ⟨hst, hd⟩]
    · intro hnc
      simp only [geoapifyBuild] at hnc ⊢
      rw [if_neg hnc]
  · intro sd county rst rc region town village rd rco
    constructor
    · rintro ⟨hst, hd⟩
      simp only [locationIQBuild] at hst ⊢
      rw [if_pos ⟨hst, hd⟩]
    · intro hnc
      simp only [locationIQBuild] at hnc ⊢
      rw [if_neg hnc]

/-- Witness for C6: Google normalizes "Nashik" even though the state is
Karnataka; MapmyIndia passes "Aurangabad" through for state Gujarat and
normalizes "Karvir" (to the district KOLHAPUR) for state Maharashtra. -/
theorem normalization_condition_witness :
    ({ state := some "Karnataka", district := some "NASHIK", city := some "NASHIK",
       country := "India", source := "Google" } : GeocodeResult).district =
      normalizeDistrictName (some "Nashik") ∧
    (mapMyIndiaBuild (some "Aurangabad") none (some "Gujarat") none none).district =
      mapMyIndiaDistrictOf (some "Aurangabad") none ∧
    (mapMyIndiaBuild (some "Karvir") none (some "Maharashtra") none none).district =
      normalizeDistrictName (mapMyIndiaDistrictOf (some "Karvir") none) :=
  ⟨normalization_condition.1 (some "Karnataka") (some "Nashik") none none
      { state := some "Karnataka", district := some "NASHIK", city := some "NASHIK",
        country := "India", source := "Google" } rfl,
   (normalization_condition.2.1 (some "Aurangabad") none (some "Gujarat") none none).2
      (by decide),
   (normalization_condition.2.1 (some "Karvir") none (some "Maharashtra") none none).1
      ⟨by decide, by decide⟩⟩

namespace Board

/-- Helper: ranking does not change the number of entries. -/
theorem assignRanks_length : ∀ (i : ℕ) (l : List Entry), (assignRanks i l).length = l.length
  | _, [] => rfl
  | i, _ :: es => by simp [assignRanks, assignRanks_length (i + 1) es]

/-- Helper: the ranks assigned from start index `i` are `i+1, i+2, …`. -/
theorem assignRanks_map_rank : ∀ (i : ℕ) (l : List Entry),
    (assignRanks i l).map (fun e => e.rank) = List.range' (i + 1) l.length
  | _, [] => rfl
  | i, _ :: es => by
    simp [assignRanks, List.range'_succ, assignRanks_map_rank (i + 1) es]

/-- Helper: ranking only rewrites `rank` and `rankEmoji`; every entry of the
output agrees with some input entry on all the other inspected fields. -/
theorem mem_assignRanks : ∀ {i : ℕ} {l : List Entry} {e : Entry}, e ∈ assignRanks i l →
    ∃ e' ∈ l, e.district = e'.district ∧ e.score = e'.score ∧
      e.category = e'.category ∧ e.metrics = e'.metrics := by
  intro i l
  induction l generalizing i with
  | nil => intro e he; simp [assignRanks] at he
  | cons a t ih =>
    intro e he
    rw [assignRanks, List.mem_cons] at he
    rcases he with he | he
    · exact ⟨a, List.mem_cons_self a t, by rw [he], by rw [he], by rw [he], by rw [he]⟩
    · obtain ⟨e', he', h⟩ := ih he
      exact ⟨e', List.mem_cons_of_mem a he', h⟩

/-- Helper: converse direction — every input entry survives ranking with its
non-rank fields intact. -/
theorem mem_assignRanks_of_mem : ∀ (i : ℕ) {l : List Entry} {e' : Entry}, e' ∈ l →
    ∃ e ∈ assignRanks i l, e.district = e'.district ∧ e.score = e'.score ∧
      e.category = e'.category ∧ e.metrics = e'.metrics := by
  intro i l
  induction l generalizing i with
  | nil => intro e' he'; simp at he'
  | cons a t ih =>
    intro e' he'
    rw [List.mem_cons] at he'
    rcases he' with he' | he'
    · subst he'
      exact ⟨{ e' with rank := i + 1, rankEmoji := rankEmojiFor (i + 1) },
        List.mem_cons_self _ _, rfl, rfl, rfl, rfl⟩
    · obtain ⟨e, he, h⟩ := ih (i + 1) he'
      exact ⟨e, List.mem_cons_of_mem _ he, h⟩

/-- Helper: the entry at position `k` after ranking is the entry at position
`k` before ranking, with rank `i + k + 1` and the matching emoji. -/
theorem assignRanks_get : ∀ (l : List Entry) (i k : ℕ) (hk : k < (assignRanks i l).length)
    (hk' : k < l.length),
    (assignRanks i l).get ⟨k, hk⟩ =
      { l.get ⟨k, hk'⟩ with rank := i + k + 1, rankEmoji := rankEmojiFor (i + k + 1) } := by
  intro l
  induction l with
  | nil => intro i k hk hk'; simp at hk'
  | cons a t ih =>
    intro i k hk hk'
    cases k with
    | zero => simp [assignRanks]
    | succ k' =>
      have h1 : k' < (assignRanks (i + 1) t).length := by
        rw [assignRanks_length]
        exact Nat.lt_of_succ_lt_succ hk'
      have h2 : k' < t.length := Nat.lt_of_succ_lt_succ hk'
      have harith : i + 1 + k' + 1 = i + (k' + 1) + 1 := by omega
      have := ih (i + 1) k' h1 h2
      simpa [assignRanks, harith] using this

/-- Helper: the leaderboard has exactly one entry per aggregated district. -/
theorem buildLeaderboard_length (allData : List DistrictAgg) :
    (buildLeaderboard allData).length = allData.length := by
  simp [buildLeaderboard, assignRanks_length]

/-- Helper: the rank fields of the leaderboard are `1, …, N` in order. -/
theorem buildLeaderboard_map_rank (allData : List DistrictAgg) :
    (buildLeaderboard allData).map (fun e => e.rank) = List.range' 1 allData.length := by
  simp [buildLeaderboard, assignRanks_map_rank]

/-- Helper: every leaderboard entry is the scored image of some aggregated
district of the input. -/
theorem mem_buildLeaderboard {allData : List DistrictAgg} {e : Entry}
    (he : e ∈ buildLeaderboard allData) :
    ∃ d ∈ allData,
      e.district = d.district ∧
      e.score =
        calculatePerformanceScore d (maxPersonDaysOf allData) (maxExpenditureOf allData) ∧
      e.category =
        (getPerformanceCategory
          (calculatePerformanceScore d (maxPersonDaysOf allData) (maxExpenditureOf allData))).label ∧
      e.metrics = (toEntry (maxPersonDaysOf allData) (maxExpenditureOf allData) d).metrics := by
  simp only [buildLeaderboard] at he
  obtain ⟨e', he', h1, h2, h3, h4⟩ := mem_assignRanks he
  rw [List.mem_mergeSort] at he'
  obtain ⟨d, hd, rfl⟩ := List.mem_map.mp he'
  exact ⟨d, hd, h1, h2, h3.trans rfl, h4⟩

/-- Helper: every aggregated district of the input produces a leaderboard
entry carrying its district name, score and metrics. -/
theorem exists_entry_of_mem {allData : List DistrictAgg} {d : DistrictAgg} (hd : d ∈ allData) :
    ∃ e ∈ buildLeaderboard allData,
      e.district = d.district ∧
      e.score =
        calculatePerformanceScore d (maxPersonDaysOf allData) (maxExpenditureOf allData) ∧
      e.metrics = (toEntry (maxPersonDaysOf allData) (maxExpenditureOf allData) d).metrics := by
  have h1 : toEntry (maxPersonDaysOf allData) (maxExpenditureOf allData) d ∈
      allData.map (toEntry (maxPersonDaysOf allData) (maxExpenditureOf allData)) :=
    List.mem_map_of_mem _ hd
  have h2 : toEntry (maxPersonDaysOf allData) (maxExpenditureOf allData) d ∈
      (allData.map (toEntry (maxPersonDaysOf allData) (maxExpenditureOf allData))).mergeSort
        scoreLE :=
    List.mem_mergeSort.mpr h1
  obtain ⟨e, he, hf1, hf2, hf3, hf4⟩ := mem_assignRanks_of_mem 0 h2
  exact ⟨e, he, hf1, hf2, hf4⟩

/-- Helper: a fold of `max` never drops below its starting value. -/
theorem foldl_max_init_le (xs : List ℚ) : ∀ a : ℚ, a ≤ xs.foldl max a := by
  induction xs with
  | nil => intro a; simp
  | cons x t ih =>
    intro a
    calc a ≤ max a x := le_max_left a x
    _ ≤ t.foldl max (max a x) := ih (max a x)

/-- Helper: a fold of `max` dominates every list element. -/
theorem le_foldl_max (xs : List ℚ) : ∀ (a x : ℚ), x ∈ xs → x ≤ xs.foldl max a := by
  induction xs with
  | nil => intro a x hx; simp at hx
  | cons y t ih =>
    intro a x hx
    rw [List.mem_cons] at hx
    rcases hx with rfl | hx
    · calc x ≤ max a x := le_max_right a x
      _ ≤ t.foldl max (max a x) := foldl_max_init_le t (max a x)
    · exact ih (max a y) x hx

/-- Helper: the floored maximum is at least 1. -/
theorem one_le_jsMaxFloor1 (xs : List ℚ) : 1 ≤ jsMaxFloor1 xs :=
  foldl_max_init_le xs 1

/-- Helper: the floored maximum dominates the list. -/
theorem le_jsMaxFloor1 {xs : List ℚ} {x : ℚ} (h : x ∈ xs) : x ≤ jsMaxFloor1 xs :=
  le_foldl_max xs 1 x h

/-- Helper: rounding to two decimals keeps nonnegative values nonnegative. -/
theorem round2_nonneg {x : ℚ} (h : 0 ≤ x) : 0 ≤ round2 x := by
  have h1 : (0 : ℤ) ≤ round (x * 100) := by
    rw [round_eq]
    rw [Int.le_floor]
    push_cast
    linarith
  unfold round2
  apply div_nonneg _ (by norm_num)
  exact_mod_cast h1

/-- Helper: rounding to two decimals keeps values at most 100 at most 100. -/
theorem round2_le_100 {x : ℚ} (h : x ≤ 100) : round2 x ≤ 100 := by
  have h1 : round (x * 100) ≤ 10000 := by
    rw [round_eq]
    have h2 : ⌊x * 100 + 1 / 2⌋ < 10001 := by
      rw [Int.floor_lt]
      push_cast
      linarith
    omega
  unfold round2
  rw [div_le_iff₀ (by norm_num : (0:ℚ) < 100)]
  calc ((round (x * 100) : ℤ) : ℚ) ≤ ((10000 : ℤ) : ℚ) := by exact_mod_cast h1
  _ = 100 * 100 := by norm_num

end Board

/-- C2: over any nonempty aggregated dataset whose person-days and
expenditure are nonnegative (the data model guarantees this), the
normalization maxima are the dataset-wide maxima floored at 1, and every
district's leaderboard entry carries the score
`round2((pd/maxPd * 0.6 + exp/maxExp * 0.4) * 100)`, which always lies in
[0, 100]; a district attaining both maxima scores exactly 100. -/
theorem leaderboard_score_spec (allData : List DistrictAgg)
    (_hne : allData ≠ [])
    (hnn : ∀ d ∈ allData, 0 ≤ d.totalPersonDays ∧ 0 ≤ d.totalExpenditure) :
    (1 ≤ maxPersonDaysOf allData ∧ 1 ≤ maxExpenditureOf allData ∧
      ∀ d ∈ allData, d.totalPersonDays ≤ maxPersonDaysOf allData ∧
        d.totalExpenditure ≤ maxExpenditureOf allData) ∧
    ∀ d ∈ allData, ∃ e ∈ buildLeaderboard allData,
      e.district = d.district ∧
      e.score = round2 ((d.totalPersonDays / maxPersonDaysOf allData * (6 / 10) +
        d.totalExpenditure / maxExpenditureOf allData * (4 / 10)) * 100) ∧
      0 ≤ e.score ∧ e.score ≤ 100 ∧
      (d.totalPersonDays = maxPersonDaysOf allData ∧
        d.totalExpenditure = maxExpenditureOf allData → e.score = 100) := by
  have hM : 1 ≤ maxPersonDaysOf allData := one_le_jsMaxFloor1 _
  have hE : 1 ≤ maxExpenditureOf allData := one_le_jsMaxFloor1 _
  have hM0 : 0 < maxPersonDaysOf allData := lt_of_lt_of_le one_pos hM
  have hE0 : 0 < maxExpenditureOf allData := lt_of_lt_of_le one_pos hE
  have hbound : ∀ d ∈ allData, d.totalPersonDays ≤ maxPersonDaysOf allData ∧
      d.totalExpenditure ≤ maxExpenditureOf allData := by
    intro d hd
    exact ⟨le_jsMaxFloor1 (List.mem_map_of_mem _ hd),
      le_jsMaxFloor1 (List.mem_map_of_mem _ hd)⟩
  refine ⟨⟨hM, hE, hbound⟩, ?_⟩
  intro d hd
  obtain ⟨e, he, hdist, hscore, hmet⟩ := exists_entry_of_mem hd
  have hscore' : e.score = round2 ((d.totalPersonDays / maxPersonDaysOf allData * (6 / 10) +
      d.totalExpenditure / maxExpenditureOf allData * (4 / 10)) * 100) := by
    rw [hscore]
    unfold calculatePerformanceScore
    rw [if_pos hM0, if_pos hE0]
  obtain ⟨hd1, hd2⟩ := hnn d hd
  obtain ⟨hb1, hb2⟩ := hbound d hd
  have hr1 : 0 ≤ d.totalPersonDays / maxPersonDaysOf allData :=
    div_nonneg hd1 (le_of_lt hM0)
  have hr2 : 0 ≤ d.totalExpenditure / maxExpenditureOf allData :=
    div_nonneg hd2 (le_of_lt hE0)
  have hr1' : d.totalPersonDays / maxPersonDaysOf allData ≤ 1 := (div_le_one hM0).mpr hb1
  have hr2' : d.totalExpenditure / maxExpenditureOf allData ≤ 1 := (div_le_one hE0).mpr hb2
  refine ⟨e, he, hdist, hscore', ?_, ?_, ?_⟩
  · rw [hscore']
    apply round2_nonneg
    nlinarith
  · rw [hscore']
    apply round2_le_100
    nlinarith
  · rintro ⟨hm1, hm2⟩
    rw [hscore', hm1, hm2, div_self (ne_of_gt hM0), div_self (ne_of_gt hE0)]
    norm_num [round2, round_eq]

/-- Witness for C2: on the one-district dataset `allDataZero` the district's
entry carries exactly the claimed score, bounded by [0, 100]. -/
theorem leaderboard_score_spec_witness :
    ∃ e ∈ buildLeaderboard allDataZero,
      e.district = aggZero.district ∧
      e.score = round2 ((aggZero.totalPersonDays / maxPersonDaysOf allDataZero * (6 / 10) +
        aggZero.totalExpenditure / maxExpenditureOf allDataZero * (4 / 10)) * 100) ∧
      0 ≤ e.score ∧ e.score ≤ 100 ∧
      (aggZero.totalPersonDays = maxPersonDaysOf allDataZero ∧
        aggZero.totalExpenditure = maxExpenditureOf allDataZero → e.score = 100) :=
  (leaderboard_score_spec allDataZero (by simp [allDataZero])
    (fun d hd => by
      rw [allDataZero, List.mem_singleton] at hd
      subst hd
      exact ⟨le_refl _, le_refl _⟩)).2 aggZero (by simp [allDataZero])

/-- C10: every leaderboard entry's `completionRate` is the guarded rounded
percentage `round(100 * worksCompleted / (worksCompleted + worksInProgress))`
when `worksCompleted + worksInProgress > 0` and `0` otherwise, and it always
lies in [0, 100] (the works counts are nonnegative in the data model). -/
theorem completionRate_guarded (allData : List DistrictAgg)
    (h : ∀ d ∈ allData, 0 ≤ d.worksCompleted ∧ 0 ≤ d.worksInProgress) :
    ∀ e ∈ buildLeaderboard allData,
      e.metrics.completionRate =
        (if 0 < e.metrics.worksCompleted + e.metrics.worksInProgress then
          round (100 * e.metrics.worksCompleted /
            (e.metrics.worksCompleted + e.metrics.worksInProgress))
        else 0) ∧
      0 ≤ e.metrics.completionRate ∧ e.metrics.completionRate ≤ 100 := by
  intro e he
  obtain ⟨d, hd, -, -, -, hm⟩ := mem_buildLeaderboard he
  obtain ⟨hwc, hwip⟩ := h d hd
  have hwc' : e.metrics.worksCompleted = d.worksCompleted := by rw [hm]; rfl
  have hwip' : e.metrics.worksInProgress = d.worksInProgress := by rw [hm]; rfl
  have hcr : e.metrics.completionRate =
      (if 0 < d.worksCompleted + d.worksInProgress then
        round (d.worksCompleted / (d.worksCompleted + d.worksInProgress) * 100)
      else 0) := by rw [hm]; rfl
  rw [hcr, hwc', hwip']
  by_cases hpos : 0 < d.worksCompleted + d.worksInProgress
  · rw [if_pos hpos, if_pos hpos]
    have heq : d.worksCompleted / (d.worksCompleted + d.worksInProgress) * 100 =
        100 * d.worksCompleted / (d.worksCompleted + d.worksInProgress) := by ring
    have hq0 : 0 ≤ d.worksCompleted / (d.worksCompleted + d.worksInProgress) * 100 := by
      apply mul_nonneg (div_nonneg hwc (le_of_lt hpos))
      norm_num
    have hq1 : d.worksCompleted / (d.worksCompleted + d.worksInProgress) ≤ 1 :=
      (div_le_one hpos).mpr (by linarith)
    have hq100 : d.worksCompleted / (d.worksCompleted + d.worksInProgress) * 100 ≤ 100 := by
      nlinarith
    refine ⟨by rw [heq], ?_, ?_⟩
    · rw [round_eq, Int.le_floor]
      push_cast
      linarith
    · rw [round_eq]
      have hlt : ⌊d.worksCompleted / (d.worksCompleted + d.worksInProgress) * 100 + 1 / 2⌋ <
          101 := by
        rw [Int.floor_lt]
        push_cast
        linarith
      omega
  · rw [if_neg hpos, if_neg hpos]
    exact ⟨rfl, le_refl 0, by norm_num⟩

/-- Witness for C10: the single entry of the `allDataZero` leaderboard has
the guarded completion rate (here the zero-works branch) within [0, 100]. -/
theorem completionRate_guarded_witness :
    (buildLeaderboard allDataZero).head!.metrics.completionRate =
      (if 0 < (buildLeaderboard allDataZero).head!.metrics.worksCompleted +
          (buildLeaderboard allDataZero).head!.metrics.worksInProgress then
        round (100 * (buildLeaderboard allDataZero).head!.metrics.worksCompleted /
          ((buildLeaderboard allDataZero).head!.metrics.worksCompleted +
            (buildLeaderboard allDataZero).head!.metrics.worksInProgress))
      else 0) ∧
    0 ≤ (buildLeaderboard allDataZero).head!.metrics.completionRate ∧
    (buildLeaderboard allDataZero).head!.metrics.completionRate ≤ 100 :=
  completionRate_guarded allDataZero
    (fun d hd => by
      rw [allDataZero, List.mem_singleton] at hd
      subst hd
      exact ⟨le_refl _, le_refl _⟩)
    ((buildLeaderboard allDataZero).head!)
    (List.head!_mem_self (by
      apply List.length_pos.mp
      rw [buildLeaderboard_length]
      simp [allDataZero]))

/-- Helper: the two elements at positions `i < j` form a sublist. -/
theorem pair_get_sublist {α : Type} (l : List α) :
    ∀ (i j : ℕ) (hij : i < j) (hj : j < l.length),
      List.Sublist [l.get ⟨i, lt_trans hij hj⟩, l.get ⟨j, hj⟩] l := by
  induction l with
  | nil => intro i j hij hj; simp at hj
  | cons a t ih =>
    intro i j hij hj
    cases i with
    | zero =>
      cases j with
      | zero => exact absurd hij (lt_irrefl 0)
      | succ j' =>
        simp only [List.get]
        exact List.Sublist.cons₂ a (List.singleton_sublist.mpr (t.get_mem _ _))
    | succ i' =>
      cases j with
      | zero => exact absurd hij (by omega)
      | succ j' =>
        simp only [List.get]
        exact List.Sublist.cons a (ih i' j' (by omega) (by simpa using hj))

/-- Helper: a two-element sublist pins down two ordered positions. -/
theorem sublist_pair_index {α : Type} {a b : α} :
    ∀ {l : List α}, List.Sublist [a, b] l →
      ∃ (i j : ℕ) (hi : i < l.length) (hj : j < l.length),
        i < j ∧ l.get ⟨i, hi⟩ = a ∧ l.get ⟨j, hj⟩ = b := by
  intro l
  induction l with
  | nil => intro h; exact absurd h (by simp)
  | cons c t ih =>
    intro h
    cases h with
    | cons _ h' =>
      obtain ⟨i, j, hi, hj, hij, ha, hb⟩ := ih h'
      exact ⟨i + 1, j + 1, Nat.succ_lt_succ hi, Nat.succ_lt_succ hj, by omega, ha, hb⟩
    | cons₂ _ h' =>
      have hbmem : b ∈ t := List.singleton_sublist.mp h'
      obtain ⟨⟨j, hj⟩, hbj⟩ := List.mem_iff_get.mp hbmem
      exact ⟨0, j + 1, by simp, Nat.succ_lt_succ hj, by omega, rfl, hbj⟩

/-- C4: the comparator sort is stable — whenever two aggregated districts at
group-iteration positions `i < j` have equal computed scores, the earlier one
ends up with the strictly smaller (better) rank in the leaderboard. -/
theorem leaderboard_stable_ties (allData : List DistrictAgg) (i j : ℕ)
    (hij : i < j) (hj : j < allData.length)
    (hscore :
      calculatePerformanceScore (allData.get ⟨i, lt_trans hij hj⟩)
          (maxPersonDaysOf allData) (maxExpenditureOf allData) =
        calculatePerformanceScore (allData.get ⟨j, hj⟩)
          (maxPersonDaysOf allData) (maxExpenditureOf allData)) :
    ∃ e ∈ buildLeaderboard allData, ∃ e' ∈ buildLeaderboard allData,
      e.district = (allData.get ⟨i, lt_trans hij hj⟩).district ∧
      e'.district = (allData.get ⟨j, hj⟩).district ∧
      e.rank < e'.rank := by
  have htrans : ∀ a b c : Entry, scoreLE a b → scoreLE b c → scoreLE a c := by
    intro a b c hab hbc
    simp only [scoreLE, decide_eq_true_eq] at hab hbc ⊢
    exact le_trans hbc hab
  have htotal : ∀ a b : Entry, scoreLE a b || scoreLE b a := by
    intro a b
    simp only [scoreLE]
    rcases le_total b.score a.score with h | h
    · simp [h]
    · simp [h]
  have hsubl :
      List.Sublist
        [toEntry (maxPersonDaysOf allData) (maxExpenditureOf allData)
            (allData.get ⟨i, lt_trans hij hj⟩),
          toEntry (maxPersonDaysOf allData) (maxExpenditureOf allData) (allData.get ⟨j, hj⟩)]
        (allData.map (toEntry (maxPersonDaysOf allData) (maxExpenditureOf allData))) := by
    have h2 := (pair_get_sublist allData i j hij hj).map
      (toEntry (maxPersonDaysOf allData) (maxExpenditureOf allData))
    simpa using h2
  have hle : scoreLE
      (toEntry (maxPersonDaysOf allData) (maxExpenditureOf allData)
        (allData.get ⟨i, lt_trans hij hj⟩))
      (toEntry (maxPersonDaysOf allData) (maxExpenditureOf allData)
        (allData.get ⟨j, hj⟩)) = true := by
    simp only [scoreLE, decide_eq_true_eq]
    show calculatePerformanceScore (allData.get ⟨j, hj⟩)
        (maxPersonDaysOf allData) (maxExpenditureOf allData) ≤
      calculatePerformanceScore (allData.get ⟨i, lt_trans hij hj⟩)
        (maxPersonDaysOf allData) (maxExpenditureOf allData)
    rw [hscore]
  have hstab := List.sublist_mergeSort htrans htotal (List.pairwise_pair.mpr hle) hsubl
  obtain ⟨k, m, hk, hm, hkm, hgk, hgm⟩ := sublist_pair_index hstab
  have hlenA : (assignRanks 0
      ((allData.map (toEntry (maxPersonDaysOf allData) (maxExpenditureOf allData))).mergeSort
        scoreLE)).length =
      ((allData.map (toEntry (maxPersonDaysOf allData) (maxExpenditureOf allData))).mergeSort
        scoreLE).length := assignRanks_length _ _
  have hk' : k < (buildLeaderboard allData).length := by
    show k < (assignRanks 0 _).length
    rw [hlenA]
    exact hk
  have hm' : m < (buildLeaderboard allData).length := by
    show m < (assignRanks 0 _).length
    rw [hlenA]
    exact hm
  have hgetk : (buildLeaderboard allData).get ⟨k, hk'⟩ =
      { ((allData.map (toEntry (maxPersonDaysOf allData) (maxExpenditureOf allData))).mergeSort
          scoreLE).get ⟨k, hk⟩ with
        rank := 0 + k + 1, rankEmoji := rankEmojiFor (0 + k + 1) } :=
    assignRanks_get _ 0 k hk' hk
  have hgetm : (buildLeaderboard allData).get ⟨m, hm'⟩ =
      { ((allData.map (toEntry (maxPersonDaysOf allData) (maxExpenditureOf allData))).mergeSort
          scoreLE).get ⟨m, hm⟩ with
        rank := 0 + m + 1, rankEmoji := rankEmojiFor (0 + m + 1) } :=
    assignRanks_get _ 0 m hm' hm
  refine ⟨(buildLeaderboard allData).get ⟨k, hk'⟩, List.get_mem _ _ _,
    (buildLeaderboard allData).get ⟨m, hm'⟩, List.get_mem _ _ _, ?_, ?_, ?_⟩
  · rw [hgetk, hgk]
    rfl
  · rw [hgetm, hgm]
    rfl
  · rw [hgetk, hgetm]
    show 0 + k + 1 < 0 + m + 1
    omega

/-- Witness for C4: `allDataTie` has two districts with identical metrics
(equal scores); the first one, AKOLA, receives the strictly better rank. -/
theorem leaderboard_stable_ties_witness :
    ∃ e ∈ buildLeaderboard allDataTie, ∃ e' ∈ buildLeaderboard allDataTie,
      e.district = (allDataTie.get ⟨0, by decide⟩).district ∧
      e'.district = (allDataTie.get ⟨1, by decide⟩).district ∧
      e.rank < e'.rank :=
  leaderboard_stable_ties allDataTie 0 1 (by decide) (by decide) rfl

namespace Board

/-- Helper: the aggregation loop groups rows by district in first-occurrence
order — district names in the map are distinct, they are exactly the district
names of the input rows, and each accumulator's wage-sum and month counter
are the sum and count over all of that district's rows (every district in the
map has at least one row). -/
theorem aggregate_invariant (records : List DataRecord) :
    ((aggregateRecords records).map (fun d => d.district)).Nodup ∧
    (∀ s, s ∈ (aggregateRecords records).map (fun d => d.district) ↔
      s ∈ records.map (fun r => r.district)) ∧
    ∀ d ∈ aggregateRecords records,
      d.avgWageRate =
        ((records.filter (fun r => r.district == d.district)).map
          (fun r => r.average_wage_per_day)).sum ∧
      d.monthsCount = (records.filter (fun r => r.district == d.district)).length ∧
      0 < (records.filter (fun r => r.district == d.district)).length := by
  induction records using List.reverseRecOn with
  | nil => simp [aggregateRecords]
  | append_singleton rs r ih =>
    obtain ⟨ihnd, ihmem, ihdata⟩ := ih
    have hagg : aggregateRecords (rs ++ [r]) = insertRecord (aggregateRecords rs) r := by
      simp [aggregateRecords, List.foldl_append]
    by_cases hmatch : (aggregateRecords rs).any (fun d => d.district == r.district)
    · have hins : insertRecord (aggregateRecords rs) r =
          (aggregateRecords rs).map
            (fun d => if d.district = r.district then addRecord d r else d) := by
        simp [insertRecord, hmatch]
      have hdis : ∀ d : DistrictAgg,
          (if d.district = r.district then addRecord d r else d).district = d.district := by
        intro d
        split
        · rfl
        · rfl
      have hdistricts :
          (aggregateRecords (rs ++ [r])).map (fun d => d.district) =
            (aggregateRecords rs).map (fun d => d.district) := by
        rw [hagg, hins, List.map_map]
        exact List.map_congr_left (fun d _ => hdis d)
      have hrmem : r.district ∈ (aggregateRecords rs).map (fun d => d.district) := by
        rw [List.any_eq_true] at hmatch
        obtain ⟨d, hd, hbeq⟩ := hmatch
        rw [beq_iff_eq] at hbeq
        exact hbeq ▸ List.mem_map_of_mem _ hd
      refine ⟨?_, ?_, ?_⟩
      · rw [hdistricts]
        exact ihnd
      · intro s
        rw [hdistricts, List.map_append, List.mem_append]
        constructor
        · intro hs
          exact Or.inl ((ihmem s).mp hs)
        · rintro (hs | hs)
          · exact (ihmem s).mpr hs
          · simp only [List.map_cons, List.map_nil, List.mem_singleton] at hs
            exact hs ▸ hrmem
      · intro d hd
        rw [hagg, hins] at hd
        obtain ⟨d₀, hd₀, hdef⟩ := List.mem_map.mp hd
        obtain ⟨hsum, hcount, hpos⟩ := ihdata d₀ hd₀
        by_cases hdr : d₀.district = r.district
        · rw [if_pos hdr] at hdef
          have hdd : d.district = d₀.district := by rw [← hdef]; rfl
          have hfil : (rs ++ [r]).filter (fun r' => r'.district == d.district) =
              rs.filter (fun r' => r'.district == d₀.district) ++ [r] := by
            rw [hdd, List.filter_append]
            congr 1
            simp [hdr.symm]
          have hwage : d.avgWageRate = d₀.avgWageRate + r.average_wage_per_day := by
            rw [← hdef]
            rfl
          have hcnt : d.monthsCount = d₀.monthsCount + 1 := by
            rw [← hdef]
            rfl
          refine ⟨?_, ?_, ?_⟩
          · rw [hwage, hfil, List.map_append, List.sum_append, hsum]
            simp
          · rw [hcnt, hfil, List.length_append, hcount]
            simp
          · rw [hfil, List.length_append]
            omega
        · rw [if_neg hdr] at hdef
          have hdd : d.district = d₀.district := by rw [← hdef]
          have hfil : (rs ++ [r]).filter (fun r' => r'.district == d.district) =
              rs.filter (fun r' => r'.district == d₀.district) := by
            rw [hdd, List.filter_append]
            have hne : (r.district == d₀.district) = false := by
              rw [beq_eq_false_iff_ne]
              exact fun he => hdr he.symm
            simp [hne]
          rw [← hdef] at hfil ⊢
          exact ⟨by rw [hfil]; exact hsum, by rw [hfil]; exact hcount, by rw [hfil]; exact hpos⟩
    · have hins : insertRecord (aggregateRecords rs) r =
          aggregateRecords rs ++ [addRecord (emptyAgg r.district) r] := by
        simp [insertRecord, hmatch]
      have hnotin : r.district ∉ (aggregateRecords rs).map (fun d => d.district) := by
        intro hmem
        obtain ⟨d, hd, hdd⟩ := List.mem_map.mp hmem
        exact hmatch (List.any_eq_true.mpr ⟨d, hd, beq_iff_eq.mpr hdd⟩)
      have hnotin_rs : r.district ∉ rs.map (fun r' => r'.district) :=
        fun h => hnotin ((ihmem r.district).mpr h)
      have hnew_d : (addRecord (emptyAgg r.district) r).district = r.district := rfl
      refine ⟨?_, ?_, ?_⟩
      · rw [hagg, hins, List.map_append, List.nodup_append]
        refine ⟨ihnd, by simp, ?_⟩
        intro s hs hs2
        simp only [List.map_cons, List.map_nil, List.mem_singleton, hnew_d] at hs2
        exact hnotin (hs2 ▸ hs)
      · intro s
        rw [hagg, hins, List.map_append, List.mem_append]
        simp only [List.map_cons, List.map_nil, List.mem_singleton, hnew_d,
          List.map_append, List.mem_append]
        exact or_congr (ihmem s) Iff.rfl
      · intro d hd
        rw [hagg, hins, List.mem_append] at hd
        rcases hd with hd | hd
        · obtain ⟨hsum, hcount, hpos⟩ := ihdata d hd
          have hne : (r.district == d.district) = false := by
            rw [beq_eq_false_iff_ne]
            intro he
            exact hnotin (he ▸ List.mem_map_of_mem _ hd)
          have hfil : (rs ++ [r]).filter (fun r' => r'.district == d.district) =
              rs.filter (fun r' => r'.district == d.district) := by
            rw [List.filter_append]
            simp [hne]
          exact ⟨by rw [hfil]; exact hsum, by rw [hfil]; exact hcount, by rw [hfil]; exact hpos⟩
        · rw [List.mem_singleton] at hd
          subst hd
          have hfil0 : rs.filter
              (fun r' => r'.district == (addRecord (emptyAgg r.district) r).district) = [] := by
            rw [List.filter_eq_nil_iff]
            intro a ha hbeq
            rw [hnew_d, beq_iff_eq] at hbeq
            exact hnotin_rs (hbeq ▸ List.mem_map_of_mem _ ha)
          have hfil : (rs ++ [r]).filter
              (fun r' => r'.district == (addRecord (emptyAgg r.district) r).district) = [r] := by
            rw [List.filter_append, hfil0]
            simp [hnew_d]
          refine ⟨?_, ?_, ?_⟩
          · rw [hfil]
            simp [addRecord, emptyAgg]
          · rw [hfil]
            rfl
          · rw [hfil]
            simp

end Board

/-- C3: for every input row set, the leaderboard has exactly one entry per
distinct district group (the groups' names are distinct and are exactly the
input rows' district names), and the rank fields are exactly `1, …, N` in
order — no duplicates and no gaps, ties or not. -/
theorem leaderboard_ranks_contiguous (records : List DataRecord) :
    (getMaharashtraLeaderboard records).length =
      (finalizeWage (aggregateRecords records)).length ∧
    (getMaharashtraLeaderboard records).map (fun e => e.rank) =
      List.range' 1 (finalizeWage (aggregateRecords records)).length ∧
    ((finalizeWage (aggregateRecords records)).map (fun d => d.district)).Nodup ∧
    ∀ s, s ∈ (finalizeWage (aggregateRecords records)).map (fun d => d.district) ↔
      s ∈ records.map (fun r => r.district) := by
  obtain ⟨hnd, hmem, -⟩ := aggregate_invariant records
  have hfd : (finalizeWage (aggregateRecords records)).map (fun d => d.district) =
      (aggregateRecords records).map (fun d => d.district) := by
    unfold finalizeWage
    rw [List.map_map]
    exact List.map_congr_left (fun d _ => rfl)
  refine ⟨buildLeaderboard_length _, buildLeaderboard_map_rank _, ?_, ?_⟩
  · rw [hfd]
    exact hnd
  · intro s
    rw [hfd]
    exact hmem s

/-- C5 (counterexample): two PUNE rows with wage rates 10 and 0. The claim
says the zero-wage row is excluded from the divisor, giving average 10; the
code divides the wage sum by the count of all rows (`monthsCount` is
incremented unconditionally), giving `round(10/2) = 5`. -/
theorem avgWageRate_excludes_zero_rows_cx :
    (finalizeWage (aggregateRecords recsC5)).map (fun d => d.avgWageRate) = [5] ∧
    avgWageRateSpec recsC5 = 10 ∧ (5 : ℚ) ≠ 10 := by
  refine ⟨?_, ?_, by norm_num⟩
  · simp only [recsC5, recC5a, recC5b, aggregateRecords, List.foldl_cons, List.foldl_nil,
      insertRecord, addRecord, emptyAgg, finalizeWage]
    norm_num [round_eq]
  · simp only [avgWageRateSpec, recsC5, recC5a, recC5b, List.filter_cons, List.filter_nil]
    norm_num [bne_iff_ne]

/-- C5 (amended): for every district in the finalized aggregation, the
`avgWageRate` is `Math.round` of the wage-rate sum over all of that
district's rows — zero-wage rows contribute 0 to the sum but are still
counted in the divisor — and the division is safe because every aggregated
district has at least one row (the `monthsCount > 0` guard also returns 0
for the unreachable zero-row case). -/
theorem avgWageRate_all_rows (records : List DataRecord) :
    ∀ d ∈ finalizeWage (aggregateRecords records),
      0 < (records.filter (fun r => r.district == d.district)).length ∧
      d.avgWageRate =
        ((round
          (((records.filter (fun r => r.district == d.district)).map
              (fun r => r.average_wage_per_day)).sum /
            (((records.filter (fun r => r.district == d.district)).length : ℚ))) : ℤ) : ℚ) := by
  intro d hd
  unfold finalizeWage at hd
  obtain ⟨d₀, hd₀, hdef⟩ := List.mem_map.mp hd
  obtain ⟨hsum, hcount, hpos⟩ := (aggregate_invariant records).2.2 d₀ hd₀
  have hdd : d.district = d₀.district := by rw [← hdef]
  have hwage : d.avgWageRate =
      (if 0 < d₀.monthsCount then ((round (d₀.avgWageRate / (d₀.monthsCount : ℚ)) : ℤ) : ℚ)
      else 0) := by rw [← hdef]
  have hm0 : 0 < d₀.monthsCount := by
    rw [hcount]
    exact hpos
  constructor
  · rw [hdd]
    exact hpos
  · rw [hdd, hwage, if_pos hm0, hsum, hcount]

/-- Witness for C5: applying the amended statement to the concrete two-row
input `recsC5` and its single aggregated district. -/
theorem avgWageRate_all_rows_witness :
    0 < (recsC5.filter (fun r =>
      r.district == (finalizeWage (aggregateRecords recsC5)).head!.district)).length ∧
    (finalizeWage (aggregateRecords recsC5)).head!.avgWageRate =
      ((round
        (((recsC5.filter (fun r =>
            r.district == (finalizeWage (aggregateRecords recsC5)).head!.district)).map
            (fun r => r.average_wage_per_day)).sum /
          (((recsC5.filter (fun r =>
            r.district == (finalizeWage (aggregateRecords recsC5)).head!.district)).length :
              ℚ))) : ℤ) : ℚ) :=
  avgWageRate_all_rows recsC5 ((finalizeWage (aggregateRecords recsC5)).head!)
    (List.head!_mem_self (by
      simp [recsC5, recC5a, recC5b, aggregateRecords, insertRecord, addRecord, emptyAgg,
        finalizeWage]))

namespace Board

/-- Helper: every leaderboard entry's stored `category` string is the Marathi
display label of the threshold category of its own score. -/
theorem mem_leaderboard_category (records : List DataRecord) :
    ∀ e ∈ getMaharashtraLeaderboard records,
      e.category = (getPerformanceCategory e.score).label := by
  intro e he
  obtain ⟨d, hd, -, hs, hc, -⟩ :=
    mem_buildLeaderboard (he : e ∈ buildLeaderboard (finalizeWage (aggregateRecords records)))
  rw [hc, hs]

end Board

/-- C9 (counterexample): on the one-district input `recsC9` the district's
score is 100, so its threshold category is Excellent (English label), yet
`getDistrictsByCategory` with the English name "Excellent" returns the empty
list — the filter compares against the stored Marathi display label
"🟢 उत्कृष्ट", not the English name. -/
theorem byCategory_english_cx :
    getDistrictsByCategory (getMaharashtraLeaderboard recsC9) "Excellent" = [] ∧
    (getMaharashtraLeaderboard recsC9).length = 1 ∧
    (getMaharashtraLeaderboard recsC9).map (fun e => (getPerformanceCategory e.score).labelEn) =
      ["Excellent"] := by
  have hagg : finalizeWage (aggregateRecords recsC9) = [aggC9] := by
    simp only [recsC9, recC9, aggregateRecords, List.foldl_cons, List.foldl_nil,
      insertRecord, addRecord, emptyAgg, finalizeWage, List.map_cons, List.map_nil, aggC9]
    norm_num [round_eq]
  have hscore :
      calculatePerformanceScore aggC9 (maxPersonDaysOf [aggC9]) (maxExpenditureOf [aggC9]) =
        100 := by
    norm_num [calculatePerformanceScore, maxPersonDaysOf, maxExpenditureOf, jsMaxFloor1,
      aggC9, max_def, round2, round_eq]
  have hlb : buildLeaderboard [aggC9] =
      [{ toEntry (maxPersonDaysOf [aggC9]) (maxExpenditureOf [aggC9]) aggC9 with
          rank := 1, rankEmoji := rankEmojiFor 1 }] := by
    simp [buildLeaderboard, assignRanks]
  have hchain : getMaharashtraLeaderboard recsC9 = buildLeaderboard [aggC9] := by
    show buildLeaderboard (finalizeWage (aggregateRecords recsC9)) = _
    rw [hagg]
  have hcat : ({ toEntry (maxPersonDaysOf [aggC9]) (maxExpenditureOf [aggC9]) aggC9 with
      rank := 1, rankEmoji := rankEmojiFor 1 }).category = "🟢 उत्कृष्ट" := by
    show (getPerformanceCategory
      (calculatePerformanceScore aggC9 (maxPersonDaysOf [aggC9]) (maxExpenditureOf [aggC9]))).label = _
    rw [hscore]
    norm_num [getPerformanceCategory]
  have hsc : ({ toEntry (maxPersonDaysOf [aggC9]) (maxExpenditureOf [aggC9]) aggC9 with
      rank := 1, rankEmoji := rankEmojiFor 1 }).score =
      calculatePerformanceScore aggC9 (maxPersonDaysOf [aggC9]) (maxExpenditureOf [aggC9]) := rfl
  refine ⟨?_, ?_, ?_⟩
  · rw [hchain, hlb]
    unfold getDistrictsByCategory
    rw [List.filter_cons, List.filter_nil]
    rw [hcat]
    simp [show (jsToLower "🟢 उत्कृष्ट" == jsToLower "Excellent") = false from by decide]
  · rw [hchain, hlb]
    rfl
  · rw [hchain, hlb, List.map_cons, List.map_nil, hsc, hscore]
    norm_num [getPerformanceCategory]

/-- C9 (amended): `getDistrictsByCategory` compares the request
case-insensitively against the stored category string, which is the Marathi
display label, so on every generated leaderboard: requesting a Marathi label
returns exactly the entries of the corresponding threshold band (score≥80
Excellent, 60≤score<80 Good, 40≤score<60 Average, score<40 Needs
Improvement), and requesting any of the English names returns the empty
list. -/
theorem byCategory_matches_thresholds (records : List DataRecord) :
    getDistrictsByCategory (getMaharashtraLeaderboard records) "🟢 उत्कृष्ट" =
      (getMaharashtraLeaderboard records).filter (fun e => decide (80 ≤ e.score)) ∧
    getDistrictsByCategory (getMaharashtraLeaderboard records) "🟡 चांगले" =
      (getMaharashtraLeaderboard records).filter
        (fun e => decide (60 ≤ e.score) && decide (e.score < 80)) ∧
    getDistrictsByCategory (getMaharashtraLeaderboard records) "🟠 सरासरी" =
      (getMaharashtraLeaderboard records).filter
        (fun e => decide (40 ≤ e.score) && decide (e.score < 60)) ∧
    getDistrictsByCategory (getMaharashtraLeaderboard records) "🔴 सुधारणा आवश्यक" =
      (getMaharashtraLeaderboard records).filter (fun e => decide (e.score < 40)) ∧
    getDistrictsByCategory (getMaharashtraLeaderboard records) "Excellent" = [] ∧
    getDistrictsByCategory (getMaharashtraLeaderboard records) "Good" = [] ∧
    getDistrictsByCategory (getMaharashtraLeaderboard records) "Average" = [] ∧
    getDistrictsByCategory (getMaharashtraLeaderboard records) "NeedsImprovement" = [] := by
  have hcat := mem_leaderboard_category records
  have hsplit : ∀ e ∈ getMaharashtraLeaderboard records,
      (80 ≤ e.score ∧ e.category = "🟢 उत्कृष्ट") ∨
      (¬ (80 ≤ e.score) ∧ 60 ≤ e.score ∧ e.category = "🟡 चांगले") ∨
      (¬ (80 ≤ e.score) ∧ ¬ (60 ≤ e.score) ∧ 40 ≤ e.score ∧ e.category = "🟠 सरासरी") ∨
      (¬ (80 ≤ e.score) ∧ ¬ (60 ≤ e.score) ∧ ¬ (40 ≤ e.score) ∧
        e.category = "🔴 सुधारणा आवश्यक") := by
    intro e he
    have hc := hcat e he
    by_cases h80 : (80 : ℚ) ≤ e.score
    · exact Or.inl ⟨h80, by rw [hc]; simp [getPerformanceCategory, h80]⟩
    · by_cases h60 : (60 : ℚ) ≤ e.score
      · exact Or.inr (Or.inl ⟨h80, h60, by rw [hc]; simp [getPerformanceCategory, h80, h60]⟩)
      · by_cases h40 : (40 : ℚ) ≤ e.score
        · exact Or.inr (Or.inr (Or.inl ⟨h80, h60, h40,
            by rw [hc]; simp [getPerformanceCategory, h80, h60, h40]⟩))
        · exact Or.inr (Or.inr (Or.inr ⟨h80, h60, h40,
            by rw [hc]; simp [getPerformanceCategory, h80, h60, h40]⟩))
  refine ⟨?_, ?_, ?_, ?_, ?_, ?_, ?_, ?_⟩
  · unfold getDistrictsByCategory
    apply List.filter_congr
    intro e he
    rcases hsplit e he with ⟨h80, hcE⟩ | ⟨h80, h60, hcE⟩ | ⟨h80, h60, h40, hcE⟩ |
      ⟨h80, h60, h40, hcE⟩ <;> rw [hcE] <;> simp [h80] <;> decide
  · unfold getDistrictsByCategory
    apply List.filter_congr
    intro e he
    rcases hsplit e he with ⟨h80, hcE⟩ | ⟨h80, h60, hcE⟩ | ⟨h80, h60, h40, hcE⟩ |
      ⟨h80, h60, h40, hcE⟩
    · rw [hcE]
      simp [not_lt.mpr h80, le_trans (by norm_num : (60:ℚ) ≤ 80) h80]
      decide
    · rw [hcE]
      simp [h60, not_le.mp h80]
    · rw [hcE]
      simp [h60]
      decide
    · rw [hcE]
      simp [h60]
      decide
  · unfold getDistrictsByCategory
    apply List.filter_congr
    intro e he
    rcases hsplit e he with ⟨h80, hcE⟩ | ⟨h80, h60, hcE⟩ | ⟨h80, h60, h40, hcE⟩ |
      ⟨h80, h60, h40, hcE⟩
    · rw [hcE]
      simp [not_lt.mpr (le_trans (by norm_num : (60:ℚ) ≤ 80) h80)]
      decide
    · rw [hcE]
      simp [not_lt.mpr h60]
      decide
    · rw [hcE]
      simp [h40, not_le.mp h60]
    · rw [hcE]
      simp [h40]
      decide
  · unfold getDistrictsByCategory
    apply List.filter_congr
    intro e he
    rcases hsplit e he with ⟨h80, hcE⟩ | ⟨h80, h60, hcE⟩ | ⟨h80, h60, h40, hcE⟩ |
      ⟨h80, h60, h40, hcE⟩
    · rw [hcE]
      simp [not_lt.mpr (le_trans (by norm_num : (40:ℚ) ≤ 80) h80)]
      decide
    · rw [hcE]
      simp [not_lt.mpr (le_trans (by norm_num : (40:ℚ) ≤ 60) h60)]
      decide
    · rw [hcE]
      simp [not_lt.mpr h40]
      decide
    · rw [hcE]
      simp [not_le.mp h40]
  · rw [show getDistrictsByCategory (getMaharashtraLeaderboard records) "Excellent" =
        (getMaharashtraLeaderboard records).filter
          (fun d => jsToLower d.category == jsToLower "Excellent") from rfl]
    rw [List.filter_eq_nil_iff]
    intro e he
    rcases hsplit e he with ⟨-, hcE⟩ | ⟨-, -, hcE⟩ | ⟨-, -, -, hcE⟩ | ⟨-, -, -, hcE⟩ <;>
      rw [hcE] <;> decide
  · rw [show getDistrictsByCategory (getMaharashtraLeaderboard records) "Good" =
        (getMaharashtraLeaderboard records).filter
          (fun d => jsToLower d.category == jsToLower "Good") from rfl]
    rw [List.filter_eq_nil_iff]
    intro e he
    rcases hsplit e he with ⟨-, hcE⟩ | ⟨-, -, hcE⟩ | ⟨-, -, -, hcE⟩ | ⟨-, -, -, hcE⟩ <;>
      rw [hcE] <;> decide
  · rw [show getDistrictsByCategory (getMaharashtraLeaderboard records) "Average" =
        (getMaharashtraLeaderboard records).filter
          (fun d => jsToLower d.category == jsToLower "Average") from rfl]
    rw [List.filter_eq_nil_iff]
    intro e he
    rcases hsplit e he with ⟨-, hcE⟩ | ⟨-, -, hcE⟩ | ⟨-, -, -, hcE⟩ | ⟨-, -, -, hcE⟩ <;>
      rw [hcE] <;> decide
  · rw [show getDistrictsByCategory (getMaharashtraLeaderboard records) "NeedsImprovement" =
        (getMaharashtraLeaderboard records).filter
          (fun d => jsToLower d.category == jsToLower "NeedsImprovement") from rfl]
    rw [List.filter_eq_nil_iff]
    intro e he
    rcases hsplit e he with ⟨-, hcE⟩ | ⟨-, -, hcE⟩ | ⟨-, -, -, hcE⟩ | ⟨-, -, -, hcE⟩ <;>
      rw [hcE] <;> decide
